import Mathlib

/-!
Verification development for the expense-tracker backend
(src/backend/server.py).  The definitions below are a shallow embedding of
the budget-alert evaluation and analytics aggregation engine:

* a proleptic Gregorian calendar modelling Python date arithmetic
  (used by get_date_range and create_budget),
* record types mirroring the pydantic models Expense, Budget, BudgetAlert,
* the database state (collections expenses, budgets, budget_alerts) with
  Mongo-style first-match updates and filter queries,
* the functions get_date_range, check_budget_alerts, the summary
  aggregation of get_summary, and the endpoints create_expense,
  update_expense, get_budgets, get_budget_alerts, create_budget.

Monetary amounts and timestamps are embedded as rationals (exact
arithmetic standing in for Python floats); the current wall clock
(datetime.utcnow, date.today) and the uuid generator are passed in as
explicit parameters.
-/

/-! ### Python date arithmetic -/

/-- Gregorian leap-year rule, as implemented by the Python datetime module. -/
def isLeap (y : Nat) : Bool :=
  y % 4 == 0 && (y % 100 != 0 || y % 400 == 0)

/-- A calendar date (proleptic Gregorian, mirroring datetime.date). -/
structure PyDate where
  year : Nat
  month : Nat
  day : Nat
deriving DecidableEq, Repr

/-- Number of days of a month in a given year. -/
def daysInMonth (y m : Nat) : Nat :=
  if m = 2 then (if isLeap y then 29 else 28)
  else if m = 4 ∨ m = 6 ∨ m = 9 ∨ m = 11 then 30
  else 31

/-- A date with month in 1..12 and day in 1..daysInMonth. -/
def ValidDate (d : PyDate) : Prop :=
  1 ≤ d.year ∧ 1 ≤ d.month ∧ d.month ≤ 12 ∧ 1 ≤ d.day ∧
    d.day ≤ daysInMonth d.year d.month

instance (d : PyDate) : Decidable (ValidDate d) := by
  unfold ValidDate; infer_instance

/-- Successor day (the step of adding timedelta(days=1)). -/
def nextDay (d : PyDate) : PyDate :=
  if d.day + 1 ≤ daysInMonth d.year d.month then
    { d with day := d.day + 1 }
  else if d.month = 12 then
    { year := d.year + 1, month := 1, day := 1 }
  else
    { year := d.year, month := d.month + 1, day := 1 }

/-- Predecessor day (the step of subtracting timedelta(days=1)). -/
def prevDay (d : PyDate) : PyDate :=
  if 2 ≤ d.day then
    { d with day := d.day - 1 }
  else if d.month = 1 then
    { year := d.year - 1, month := 12, day := 31 }
  else
    { year := d.year, month := d.month - 1,
      day := daysInMonth d.year (d.month - 1) }

/-- date + timedelta(days=n). -/
def addDays (d : PyDate) : Nat → PyDate
  | 0 => d
  | n + 1 => nextDay (addDays d n)

/-- date - timedelta(days=n). -/
def subDays (d : PyDate) : Nat → PyDate
  | 0 => d
  | n + 1 => prevDay (subDays d n)

/-- Count of days in 1..y-1 that belong to leap years times one, used by
the ordinal computation. -/
def leapsBefore (y : Nat) : Nat :=
  (y - 1) / 4 - (y - 1) / 100 + (y - 1) / 400

/-- Days of year y that precede month m. -/
def daysBeforeMonth (y m : Nat) : Nat :=
  ((List.range (m - 1)).map (fun i => daysInMonth y (i + 1))).sum

/-- Python date.toordinal: day number with 0001-01-01 ↦ 1. -/
def toOrdinal (d : PyDate) : Nat :=
  365 * (d.year - 1) + leapsBefore d.year + daysBeforeMonth d.year d.month + d.day

/-- Python date.weekday: Monday ↦ 0, ..., Sunday ↦ 6. -/
def weekday (d : PyDate) : Nat :=
  (toOrdinal d + 6) % 7

/-- Zero-pad a number to two digits. -/
def pad2 (n : Nat) : String :=
  if n < 10 then "0" ++ toString n else toString n

/-- Zero-pad a number to four digits. -/
def pad4 (n : Nat) : String :=
  if n < 10 then "000" ++ toString n
  else if n < 100 then "00" ++ toString n
  else if n < 1000 then "0" ++ toString n
  else toString n

/-- Python str(date): ISO format YYYY-MM-DD. -/
def isoStr (d : PyDate) : String :=
  pad4 d.year ++ "-" ++ pad2 d.month ++ "-" ++ pad2 d.day

/-- Truthiness of an optional string argument (None and the empty string
are falsy in Python). -/
def truthy : Option String → Bool
  | none => false
  | some s => s != ""

/-- The last day of the current month, computed the way server.py does:
next_month = today.replace(day=28) + timedelta(days=4);
end = next_month - timedelta(days=next_month.day). -/
def monthEnd (today : PyDate) : PyDate :=
  let next_month := addDays { today with day := 28 } 4
  subDays next_month next_month.day

/-- get_date_range from server.py: resolve a symbolic period tag (and, for
the custom tag, optional explicit bounds) to an inclusive date range,
rendered as ISO strings. -/
def get_date_range (today : PyDate) (period : String)
    (custom_start custom_end : Option String) : String × String :=
  if period == "today" then
    (isoStr today, isoStr today)
  else if period == "week" then
    let start := subDays today (weekday today)
    let endd := addDays start 6
    (isoStr start, isoStr endd)
  else if period == "month" then
    (isoStr { today with day := 1 }, isoStr (monthEnd today))
  else if period == "year" then
    (isoStr { today with month := 1, day := 1 },
     isoStr { today with month := 12, day := 31 })
  else if period == "custom" && truthy custom_start && truthy custom_end then
    (custom_start.getD "", custom_end.getD "")
  else
    (isoStr { today with day := 1 }, isoStr (monthEnd today))

/-! #### The month-end computation lands on the last day of the month -/

lemma daysInMonth_ge (y m : Nat) : 28 ≤ daysInMonth y m := by
  unfold daysInMonth; split_ifs <;> omega

lemma daysInMonth_cases (y m : Nat) :
    daysInMonth y m = 28 ∨ daysInMonth y m = 29 ∨
    daysInMonth y m = 30 ∨ daysInMonth y m = 31 := by
  unfold daysInMonth; split_ifs <;> simp

lemma daysInMonth_twelve (y : Nat) : daysInMonth y 12 = 31 := rfl

lemma nextDay_step (y m k : Nat) (h : k + 1 ≤ daysInMonth y m) :
    nextDay ⟨y, m, k⟩ = ⟨y, m, k + 1⟩ := by
  unfold nextDay; rw [if_pos h]

lemma nextDay_roll (y m k : Nat) (h : ¬ (k + 1 ≤ daysInMonth y m))
    (h12 : ¬ (m = 12)) : nextDay ⟨y, m, k⟩ = ⟨y, m + 1, 1⟩ := by
  unfold nextDay; rw [if_neg h, if_neg h12]

lemma nextDay_newyear (y k : Nat) (h : ¬ (k + 1 ≤ daysInMonth y 12)) :
    nextDay ⟨y, 12, k⟩ = ⟨y + 1, 1, 1⟩ := by
  unfold nextDay; rw [if_neg h, if_pos rfl]

lemma prevDay_step (y m k : Nat) (h : 2 ≤ k) :
    prevDay ⟨y, m, k⟩ = ⟨y, m, k - 1⟩ := by
  unfold prevDay; rw [if_pos h]

lemma prevDay_rollback (y m k : Nat) (h : ¬ (2 ≤ k)) (h1 : ¬ (m = 1)) :
    prevDay ⟨y, m, k⟩ = ⟨y, m - 1, daysInMonth y (m - 1)⟩ := by
  unfold prevDay; rw [if_neg h, if_neg h1]

lemma prevDay_prevyear (y k : Nat) (h : ¬ (2 ≤ k)) :
    prevDay ⟨y, 1, k⟩ = ⟨y - 1, 12, 31⟩ := by
  unfold prevDay; rw [if_neg h, if_pos rfl]

lemma addDays_four (p : PyDate) :
    addDays p 4 = nextDay (nextDay (nextDay (nextDay p))) := rfl

lemma monthEnd_eq (y m d : Nat) (h1 : 1 ≤ m) (h2 : m ≤ 12) :
    monthEnd ⟨y, m, d⟩ = ⟨y, m, daysInMonth y m⟩ := by
  have hrepl : ({ (⟨y, m, d⟩ : PyDate) with day := 28 } : PyDate) = ⟨y, m, 28⟩ := rfl
  show subDays (addDays { (⟨y, m, d⟩ : PyDate) with day := 28 } 4)
      (addDays { (⟨y, m, d⟩ : PyDate) with day := 28 } 4).day = ⟨y, m, daysInMonth y m⟩
  rw [hrepl, addDays_four]
  rcases daysInMonth_cases y m with hn | hn | hn | hn
  · -- 28-day month: cannot be December
    have hm12 : ¬ (m = 12) := by
      intro h; rw [h, daysInMonth_twelve] at hn; omega
    rw [nextDay_roll y m 28 (by omega) hm12,
        nextDay_step y (m + 1) 1 (by have := daysInMonth_ge y (m + 1); omega),
        nextDay_step y (m + 1) 2 (by have := daysInMonth_ge y (m + 1); omega),
        nextDay_step y (m + 1) 3 (by have := daysInMonth_ge y (m + 1); omega)]
    show prevDay (prevDay (prevDay (prevDay ⟨y, m + 1, 4⟩))) = _
    rw [prevDay_step y (m + 1) 4 (by omega), prevDay_step y (m + 1) 3 (by omega),
        prevDay_step y (m + 1) 2 (by omega),
        prevDay_rollback y (m + 1) 1 (by omega) (by omega)]
    simp [hn]
  · -- 29-day month
    have hm12 : ¬ (m = 12) := by
      intro h; rw [h, daysInMonth_twelve] at hn; omega
    rw [nextDay_step y m 28 (by omega),
        nextDay_roll y m 29 (by omega) hm12,
        nextDay_step y (m + 1) 1 (by have := daysInMonth_ge y (m + 1); omega),
        nextDay_step y (m + 1) 2 (by have := daysInMonth_ge y (m + 1); omega)]
    show prevDay (prevDay (prevDay ⟨y, m + 1, 3⟩)) = _
    rw [prevDay_step y (m + 1) 3 (by omega), prevDay_step y (m + 1) 2 (by omega),
        prevDay_rollback y (m + 1) 1 (by omega) (by omega)]
    simp [hn]
  · -- 30-day month
    have hm12 : ¬ (m = 12) := by
      intro h; rw [h, daysInMonth_twelve] at hn; omega
    rw [nextDay_step y m 28 (by omega), nextDay_step y m 29 (by omega),
        nextDay_roll y m 30 (by omega) hm12,
        nextDay_step y (m + 1) 1 (by have := daysInMonth_ge y (m + 1); omega)]
    show prevDay (prevDay ⟨y, m + 1, 2⟩) = _
    rw [prevDay_step y (m + 1) 2 (by omega),
        prevDay_rollback y (m + 1) 1 (by omega) (by omega)]
    simp [hn]
  · -- 31-day month
    by_cases hm12 : m = 12
    · subst hm12
      rw [nextDay_step y 12 28 (by omega), nextDay_step y 12 29 (by omega),
          nextDay_step y 12 30 (by omega), nextDay_newyear y 31 (by omega)]
      show prevDay ⟨y + 1, 1, 1⟩ = _
      rw [prevDay_prevyear (y + 1) 1 (by omega)]
      simp [hn]
    · rw [nextDay_step y m 28 (by omega), nextDay_step y m 29 (by omega),
          nextDay_step y m 30 (by omega), nextDay_roll y m 31 (by omega) hm12]
      show prevDay ⟨y, m + 1, 1⟩ = _
      rw [prevDay_rollback y (m + 1) 1 (by omega) (by omega)]
      simp [hn]

lemma monthEnd_day (today : PyDate) (h : ValidDate today) :
    monthEnd today = ⟨today.year, today.month, daysInMonth today.year today.month⟩ := by
  obtain ⟨_, h1, h2, _, _⟩ := h
  exact monthEnd_eq today.year today.month today.day h1 h2

/-! ### Records and database state -/

/-- An expense/income transaction record (pydantic model Expense). -/
structure Expense where
  id : String
  user_id : String
  title : String
  amount : ℚ
  category : String
  type : String
  description : Option String
  date : String
  created_at : ℚ
deriving DecidableEq, Repr

/-- A budget record (pydantic model Budget). -/
structure Budget where
  id : String
  user_id : String
  category : String
  limit_amount : ℚ
  period : String
  start_date : String
  end_date : String
  current_spent : ℚ
  is_active : Bool
  created_at : ℚ
deriving DecidableEq, Repr

/-- A budget alert record (pydantic model BudgetAlert). -/
structure BudgetAlert where
  id : String
  user_id : String
  budget_id : String
  message : String
  alert_type : String
  percentage : ℚ
  created_at : ℚ
  is_read : Bool
deriving DecidableEq, Repr

/-- The MongoDB collections the core touches. -/
structure DB where
  expenses : List Expense
  budgets : List Budget
  budget_alerts : List BudgetAlert
deriving DecidableEq, Repr

/-- Lexicographic comparison on character lists, modelling the byte-wise
string comparison Mongo applies to range filters on date strings. -/
def charListLe : List Char → List Char → Bool
  | [], _ => true
  | _ :: _, [] => false
  | a :: as, b :: bs =>
    if a < b then true else if b < a then false else charListLe as bs

/-- String comparison used by date range filters. -/
def strLe (a b : String) : Bool := charListLe a.data b.data

/-- 24 hours, in seconds (timedelta(days=1) against utcnow timestamps). -/
def oneDay : ℚ := 86400

/-- Render a rational with two decimal places (Python format .2f). -/
def fmt2 (q : ℚ) : String :=
  let n : ℤ := round (q * 100)
  let sign := if n < 0 then "-" else ""
  sign ++ toString (n.natAbs / 100) ++ "." ++ pad2 (n.natAbs % 100)

/-- Render a rational with one decimal place (Python format .1f). -/
def fmt1 (q : ℚ) : String :=
  let n : ℤ := round (q * 10)
  let sign := if n < 0 then "-" else ""
  sign ++ toString (n.natAbs / 10) ++ "." ++ toString (n.natAbs % 10)

/-! ### check_budget_alerts (server.py lines 208-265) -/

/-- The Mongo filter of line 214: expense-kind transactions of the user in
the budget's category with date inside the budget period. -/
def matchExp (uid : String) (b : Budget) (e : Expense) : Bool :=
  e.user_id == uid && e.category == b.category && e.type == "expense" &&
    strLe b.start_date e.date && strLe e.date b.end_date

/-- current_spent of line 221: the amounts of the first 1000 matching
transactions (find(...).to_list(1000)), summed. -/
def spentOf (exps : List Expense) (uid : String) (b : Budget) : ℚ :=
  (((exps.filter (matchExp uid b)).take 1000).map (fun e => e.amount)).sum

/-- percentage of line 222, with the zero/negative-limit guard. -/
def pctOf (spent limit : ℚ) : ℚ :=
  if 0 < limit then spent / limit * 100 else 0

/-- The dedup query of lines 232-236 / 250-254: does an alert of this kind
for this budget exist with created_at within the trailing 24 hours. -/
def recentAlert (alerts : List BudgetAlert) (bid kind : String) (now : ℚ) :
    Bool :=
  alerts.any (fun a =>
    a.budget_id == bid && a.alert_type == kind &&
      decide (now - oneDay ≤ a.created_at))

/-- Mongo update_one of lines 225-228: overwrite current_spent on the
first budget record matching the id filter. -/
def updateFirstSpent (bs : List Budget) (bid : String) (v : ℚ) :
    List Budget :=
  match bs with
  | [] => []
  | b :: rest =>
    if b.id == bid then { b with current_spent := v } :: rest
    else b :: updateFirstSpent rest bid v

/-- Message of the exceeded alert (line 242). -/
def exceededMsg (category : String) (spent limit : ℚ) : String :=
  "Budget exceeded for " ++ category ++ "! Spent $" ++ fmt2 spent ++
    " of $" ++ fmt2 limit

/-- Message of the warning alert (line 260). -/
def warningMsg (category : String) (pct spent limit : ℚ) : String :=
  "Budget warning for " ++ category ++ "! " ++ fmt1 pct ++
    "% spent ($" ++ fmt2 spent ++ " of $" ++ fmt2 limit ++ ")"

/-- Build a BudgetAlert record as lines 238-246 / 256-264 do. -/
def mkAlert (id uid bid msg kind : String) (pct now : ℚ) : BudgetAlert :=
  { id := id, user_id := uid, budget_id := bid, message := msg,
    alert_type := kind, percentage := pct, created_at := now,
    is_read := false }

/-- The alert insertions of lines 230-265 for one budget: at most one
alert, exceeded taking priority, each kind suppressed by its own 24-hour
dedup window.  (The alert_created flag of the source is identically false
when the elif of line 250 is reached, so it does not appear.)  The fresh
uuid for the inserted record is supplied by the generator g. -/
def stepAlerts (alerts : List BudgetAlert) (uid : String) (now : ℚ)
    (g : Nat → String) (b : Budget) (spent pct : ℚ) : List BudgetAlert :=
  if decide (100 ≤ pct) && ! recentAlert alerts b.id "exceeded" now then
    [mkAlert (g alerts.length) uid b.id
      (exceededMsg b.category spent b.limit_amount) "exceeded" pct now]
  else if decide (80 ≤ pct) && ! recentAlert alerts b.id "warning" now then
    [mkAlert (g alerts.length) uid b.id
      (warningMsg b.category pct spent b.limit_amount) "warning" pct now]
  else []

/-- The body of the per-budget loop of check_budget_alerts (lines
212-265): recompute current_spent from matching transactions, write it
back onto the budget record unconditionally, then insert at most one
alert subject to the threshold policy and dedup windows. -/
def evalBudget (uid : String) (now : ℚ) (g : Nat → String) (db : DB)
    (b : Budget) : DB :=
  let spent := spentOf db.expenses uid b
  let pct := pctOf spent b.limit_amount
  { db with
    budgets := updateFirstSpent db.budgets b.id spent,
    budget_alerts :=
      db.budget_alerts ++ stepAlerts db.budget_alerts uid now g b spent pct }

/-- The snapshot of budgets the evaluator iterates over (line 210):
active budgets of the user, first 100. -/
def activeBudgetsOf (db : DB) (uid : String) : List Budget :=
  (db.budgets.filter (fun b => b.user_id == uid && b.is_active)).take 100

/-- check_budget_alerts (lines 208-265): evaluate every fetched active
budget of the user in order, accumulating the storage side effects. -/
def check_budget_alerts (db : DB) (uid : String) (now : ℚ)
    (g : Nat → String) : DB :=
  (activeBudgetsOf db uid).foldl (evalBudget uid now g) db

/-! ### Expense endpoints (server.py lines 508-583) -/

/-- Request body of POST /expenses (pydantic ExpenseCreate). -/
structure ExpenseCreate where
  title : String
  amount : ℚ
  category : String
  type : String := "expense"
  description : Option String := none
  date : Option String := none
deriving DecidableEq, Repr

/-- Request body of PUT /expenses (pydantic ExpenseUpdate, all fields
optional). -/
structure ExpenseUpdate where
  title : Option String := none
  amount : Option ℚ := none
  category : Option String := none
  type : Option String := none
  description : Option String := none
  date : Option String := none
deriving DecidableEq, Repr

/-- Python expense_data.date or str(date.today()): None and the empty
string fall back to today. -/
def dateOrToday (d : Option String) (today : PyDate) : String :=
  match d with
  | some s => if s == "" then isoStr today else s
  | none => isoStr today

/-- create_expense (lines 508-528): insert the new record, then run the
budget evaluator only when the transaction kind is expense. -/
def create_expense (db : DB) (uid : String) (d : ExpenseCreate)
    (newId : String) (today : PyDate) (now : ℚ) (g : Nat → String) :
    DB × Expense :=
  let e : Expense :=
    { id := newId, user_id := uid, title := d.title, amount := d.amount,
      category := d.category, type := d.type, description := d.description,
      date := dateOrToday d.date today, created_at := now }
  let db1 : DB := { db with expenses := db.expenses ++ [e] }
  if d.type == "expense" then (check_budget_alerts db1 uid now g, e)
  else (db1, e)

/-- The non-None fields of the update body (the update_data dict of line
565) are non-empty. -/
def updNonEmpty (u : ExpenseUpdate) : Bool :=
  u.title.isSome || u.amount.isSome || u.category.isSome ||
    u.type.isSome || u.description.isSome || u.date.isSome

/-- Apply the set of non-None fields to a record (Mongo $set). -/
def applyExpenseUpdate (e : Expense) (u : ExpenseUpdate) : Expense :=
  { e with
    title := u.title.getD e.title,
    amount := u.amount.getD e.amount,
    category := u.category.getD e.category,
    type := u.type.getD e.type,
    description := match u.description with
      | some s => some s
      | none => e.description,
    date := u.date.getD e.date }

/-- Mongo update_one on expenses: apply the update to the first record
matching id and user. -/
def updateFirstExpense (es : List Expense) (uid eid : String)
    (u : ExpenseUpdate) : List Expense :=
  match es with
  | [] => []
  | e :: rest =>
    if e.id == eid && e.user_id == uid then applyExpenseUpdate e u :: rest
    else e :: updateFirstExpense rest uid eid u

/-- update_expense (lines 555-575): 404 (none) when no record of the user
has the id; otherwise, when the update body is non-empty, apply it and run
the budget evaluator — regardless of the transaction kind. -/
def update_expense (db : DB) (uid eid : String) (u : ExpenseUpdate)
    (now : ℚ) (g : Nat → String) : Option DB :=
  match db.expenses.find? (fun e => e.id == eid && e.user_id == uid) with
  | none => none
  | some _ =>
    if updNonEmpty u then
      some (check_budget_alerts
        { db with expenses := updateFirstExpense db.expenses uid eid u }
        uid now g)
    else some db

/-! ### Budget endpoints (server.py lines 411-494) -/

/-- get_budgets (lines 411-421): fetch the user's budgets (first 100),
run the evaluator once per fetched budget, then return the refreshed
records. -/
def get_budgets (db : DB) (uid : String) (now : ℚ) (g : Nat → String) :
    DB × List Budget :=
  let bs := (db.budgets.filter (fun b => b.user_id == uid)).take 100
  let db1 := Nat.iterate (fun s => check_budget_alerts s uid now g)
    bs.length db
  (db1, (db1.budgets.filter (fun b => b.user_id == uid)).take 100)

/-- Insert an alert into a list sorted by descending created_at. -/
def insertDesc (a : BudgetAlert) : List BudgetAlert → List BudgetAlert
  | [] => [a]
  | b :: r =>
    if decide (b.created_at ≤ a.created_at) then a :: b :: r
    else b :: insertDesc a r

/-- Sort alerts by created_at, newest first (the sort of line 493). -/
def sortByCreatedDesc : List BudgetAlert → List BudgetAlert
  | [] => []
  | a :: r => insertDesc a (sortByCreatedDesc r)

/-- get_budget_alerts (lines 490-494): run the evaluator, then return the
user's alerts newest first, capped at 50. -/
def get_budget_alerts (db : DB) (uid : String) (now : ℚ)
    (g : Nat → String) : DB × List BudgetAlert :=
  let db1 := check_budget_alerts db uid now g
  (db1,
   (sortByCreatedDesc
      (db1.budget_alerts.filter (fun a => a.user_id == uid))).take 50)

/-- Request body of POST /budgets (pydantic BudgetCreate). -/
structure BudgetCreate where
  category : String
  limit_amount : ℚ
  period : String := "monthly"
deriving DecidableEq, Repr

/-- Result of create_budget: the (possibly unchanged) database, the
created record if any, and the surfaced conflict error if any. -/
structure CreateBudgetResult where
  db : DB
  created : Option Budget
  error : Option String
deriving DecidableEq, Repr

/-- create_budget (lines 423-458): compute the period bounds from the
current date (any period other than monthly is treated as weekly), reject
with a conflict when an active budget for the same user, category and
period exists (leaving the state unchanged), otherwise insert exactly one
new budget record. -/
def create_budget (db : DB) (uid : String) (d : BudgetCreate)
    (newId : String) (today : PyDate) (now : ℚ) : CreateBudgetResult :=
  let bounds : PyDate × PyDate :=
    if d.period == "monthly" then
      ({ today with day := 1 }, monthEnd today)
    else
      let s := subDays today (weekday today)
      (s, addDays s 6)
  if db.budgets.any (fun b =>
      b.user_id == uid && b.category == d.category &&
        b.period == d.period && b.is_active) then
    { db := db, created := none,
      error := some "Active budget already exists for this category and period" }
  else
    let b : Budget :=
      { id := newId, user_id := uid, category := d.category,
        limit_amount := d.limit_amount, period := d.period,
        start_date := isoStr bounds.1, end_date := isoStr bounds.2,
        current_spent := 0, is_active := true, created_at := now }
    { db := { db with budgets := db.budgets ++ [b] }, created := some b,
      error := none }

/-! ### The summary aggregator (server.py lines 586-623) -/

/-- Add an amount to a category key in an insertion-ordered mapping
(the Python dict update of line 612). -/
def upsertAdd : List (String × ℚ) → String → ℚ → List (String × ℚ)
  | [], k, v => [(k, v)]
  | (k', v') :: rest, k, v =>
    if k' == k then (k', v' + v) :: rest
    else (k', v') :: upsertAdd rest k v

/-- The aggregate returned by GET /analytics/summary. -/
structure SummaryResult where
  total_expenses : ℚ
  total_income : ℚ
  balance : ℚ
  category_breakdown : List (String × ℚ)
  transaction_count : Nat
deriving DecidableEq, Repr

/-- The aggregation core of get_summary (lines 603-619), applied to the
fetched transaction set. -/
def summarize (ts : List Expense) : SummaryResult :=
  { total_expenses :=
      ((ts.filter (fun t => t.type == "expense")).map (fun t => t.amount)).sum,
    total_income :=
      ((ts.filter (fun t => t.type == "income")).map (fun t => t.amount)).sum,
    balance :=
      ((ts.filter (fun t => t.type == "income")).map (fun t => t.amount)).sum -
        ((ts.filter (fun t => t.type == "expense")).map (fun t => t.amount)).sum,
    category_breakdown :=
      ts.foldl (fun m t =>
        if t.type == "expense" then upsertAdd m t.category t.amount else m) [],
    transaction_count := ts.length }

/-- The fetch of get_summary (lines 597-601): the user's transactions,
restricted to the date range when both bounds are truthy, first 1000. -/
def summaryFetch (db : DB) (uid : String) (sd ed : Option String) :
    List Expense :=
  (db.expenses.filter (fun e =>
    e.user_id == uid &&
      (if truthy sd && truthy ed then
        strLe (sd.getD "") e.date && strLe e.date (ed.getD "")
      else true))).take 1000

/-- get_summary (lines 586-623): resolve the period tag unless custom,
fetch, aggregate. -/
def get_summary (db : DB) (uid : String) (period : String)
    (start_date end_date : Option String) (today : PyDate) : SummaryResult :=
  let range : Option String × Option String :=
    if period != "custom" then
      let r := get_date_range today period none none
      (some r.1, some r.2)
    else (start_date, end_date)
  summarize (summaryFetch db uid range.1 range.2)

/-! ### Aggregator lemmas and claim C5 -/

lemma upsertAdd_snd_sum (m : List (String × ℚ)) (k : String) (v : ℚ) :
    ((upsertAdd m k v).map Prod.snd).sum = (m.map Prod.snd).sum + v := by
  induction m with
  | nil => simp [upsertAdd]
  | cons p rest ih =>
    obtain ⟨k', v'⟩ := p
    by_cases h : k' == k
    · simp [upsertAdd, h]; ring
    · simp [upsertAdd, h, ih]; ring

lemma breakdown_foldl_sum (ts : List Expense) :
    ∀ m : List (String × ℚ),
      (((ts.foldl (fun m t =>
          if t.type == "expense" then upsertAdd m t.category t.amount
          else m) m).map Prod.snd).sum) =
        (m.map Prod.snd).sum +
          ((ts.filter (fun t => t.type == "expense")).map
            (fun t => t.amount)).sum := by
  induction ts with
  | nil => intro m; simp
  | cons t rest ih =>
    intro m
    by_cases h : (t.type == "expense") = true
    · rw [List.foldl_cons, List.filter_cons, if_pos h, if_pos h,
        ih (upsertAdd m t.category t.amount), upsertAdd_snd_sum,
        List.map_cons, List.sum_cons]
      ring
    · rw [List.foldl_cons, List.filter_cons, if_neg h, if_neg h]
      exact ih m

/-- C5: for every transaction set given to the aggregator, balance equals
total_income minus total_expenses; the values of category_breakdown sum to
total_expenses (income excluded); transaction_count is the size of the
input; and the empty input yields all-zero totals and an empty breakdown. -/
theorem C5_summary_invariants (ts : List Expense) :
    (summarize ts).balance =
      (summarize ts).total_income - (summarize ts).total_expenses ∧
    (((summarize ts).category_breakdown.map Prod.snd).sum =
      (summarize ts).total_expenses) ∧
    (summarize ts).transaction_count = ts.length ∧
    summarize [] = { total_expenses := 0, total_income := 0, balance := 0,
                     category_breakdown := [], transaction_count := 0 } := by
  refine ⟨rfl, ?_, rfl, ?_⟩
  · show ((List.foldl _ [] ts).map Prod.snd).sum = _
    rw [breakdown_foldl_sum ts []]
    simp [summarize]
  · simp [summarize]

/-! ### Claim C4: the zero/negative-limit guard -/

/-- C4: a zero or negative budget limit short-circuits the percentage to
zero (no division is attempted), and consequently the evaluation of such a
budget completes normally and never emits an alert. -/
theorem C4_zero_limit_guard (spent limit : ℚ) (hl : limit ≤ 0) :
    pctOf spent limit = 0 ∧
    (∀ (db : DB) (uid : String) (now : ℚ) (g : Nat → String) (b : Budget),
      b.limit_amount ≤ 0 →
      (evalBudget uid now g db b).budget_alerts = db.budget_alerts) := by
  constructor
  · unfold pctOf
    rw [if_neg (by exact not_lt.mpr hl)]
  · intro db uid now g b hb
    have hp : pctOf (spentOf db.expenses uid b) b.limit_amount = 0 := by
      unfold pctOf
      rw [if_neg (by exact not_lt.mpr hb)]
    show db.budget_alerts ++ stepAlerts db.budget_alerts uid now g b
        (spentOf db.expenses uid b)
        (pctOf (spentOf db.expenses uid b) b.limit_amount) = db.budget_alerts
    rw [hp]
    unfold stepAlerts
    norm_num

/-- Witness for C4 at limit zero. -/
theorem C4_zero_limit_guard_witness :
    pctOf 55 0 = 0 ∧
    (evalBudget "u" 0 (fun _ => "a")
      { expenses := [], budgets := [], budget_alerts := [] }
      { id := "b", user_id := "u", category := "Food", limit_amount := 0,
        period := "monthly", start_date := "2025-01-01",
        end_date := "2025-01-31", current_spent := 0, is_active := true,
        created_at := 0 }).budget_alerts = [] := by
  constructor
  · exact (C4_zero_limit_guard 55 0 le_rfl).1
  · exact (C4_zero_limit_guard 55 0 le_rfl).2
      { expenses := [], budgets := [], budget_alerts := [] } "u" 0
      (fun _ => "a") _ le_rfl

/-! ### Claims C6 and C9: the period resolver -/

/-- C6: for every current date, the tag month resolves to the inclusive
range from the first to the last calendar day of the current month; the
range length (in ordinal days) is the number of days of that month, leap
years included via daysInMonth; and every unrecognized tag resolves to
exactly the same range. -/
theorem C6_month_range (today : PyDate) (h : ValidDate today)
    (cs ce : Option String) :
    get_date_range today "month" cs ce =
      (isoStr ⟨today.year, today.month, 1⟩,
       isoStr ⟨today.year, today.month, daysInMonth today.year today.month⟩) ∧
    (toOrdinal ⟨today.year, today.month, daysInMonth today.year today.month⟩
        + 1 - toOrdinal ⟨today.year, today.month, 1⟩
      = daysInMonth today.year today.month) ∧
    (∀ tag : String, tag ≠ "today" → tag ≠ "week" → tag ≠ "month" →
      tag ≠ "year" → tag ≠ "custom" →
      get_date_range today tag cs ce = get_date_range today "month" cs ce) := by
  have hmonth : get_date_range today "month" cs ce =
      (isoStr { today with day := 1 }, isoStr (monthEnd today)) := rfl
  have hfirst : ({ today with day := 1 } : PyDate) =
      ⟨today.year, today.month, 1⟩ := rfl
  refine ⟨?_, ?_, ?_⟩
  · rw [hmonth, hfirst, monthEnd_day today h]
  · simp only [toOrdinal]
    omega
  · intro tag h1 h2 h3 h4 h5
    have e1 : (tag == "today") = false := beq_eq_false_iff_ne.mpr h1
    have e2 : (tag == "week") = false := beq_eq_false_iff_ne.mpr h2
    have e3 : (tag == "month") = false := beq_eq_false_iff_ne.mpr h3
    have e4 : (tag == "year") = false := beq_eq_false_iff_ne.mpr h4
    have e5 : (tag == "custom") = false := beq_eq_false_iff_ne.mpr h5
    rw [hmonth]
    show (if (tag == "today") = true then (isoStr today, isoStr today)
      else if (tag == "week") = true then _
      else if (tag == "month") = true then _
      else if (tag == "year") = true then _
      else if (tag == "custom" && truthy cs && truthy ce) = true then _
      else (isoStr { today with day := 1 }, isoStr (monthEnd today))) = _
    rw [e1, e2, e3, e4, e5]
    simp

/-- Witness for C6: February 2024 (a leap year). -/
theorem C6_month_range_witness :
    ValidDate ⟨2024, 2, 15⟩ ∧
    get_date_range ⟨2024, 2, 15⟩ "month" none none =
      ("2024-02-01", "2024-02-29") ∧
    get_date_range ⟨2024, 2, 15⟩ "spam" none none =
      get_date_range ⟨2024, 2, 15⟩ "month" none none := by
  refine ⟨by decide, ?_, ?_⟩
  · rw [(C6_month_range ⟨2024, 2, 15⟩ (by decide) none none).1]
    rfl
  · exact (C6_month_range ⟨2024, 2, 15⟩ (by decide) none none).2.2 "spam"
      (by decide) (by decide) (by decide) (by decide) (by decide)

/-- C9: the custom tag passes the caller-supplied bounds through verbatim
exactly when both are non-empty strings; when either bound is missing or
empty the resolver returns the current-month range instead. -/
theorem C9_custom_requires_both_bounds (today : PyDate) :
    (∀ s t : String, s ≠ "" → t ≠ "" →
      get_date_range today "custom" (some s) (some t) = (s, t)) ∧
    (∀ cs ce : Option String, truthy cs = false ∨ truthy ce = false →
      get_date_range today "custom" cs ce =
        get_date_range today "month" none none) := by
  have hmonth : get_date_range today "month" none none =
      (isoStr { today with day := 1 }, isoStr (monthEnd today)) := rfl
  constructor
  · intro s t hs ht
    have es : truthy (some s) = true := by
      simp [truthy, bne_iff_ne, hs]
    have et : truthy (some t) = true := by
      simp [truthy, bne_iff_ne, ht]
    show (if ("custom" == "today") = true then _
      else if ("custom" == "week") = true then _
      else if ("custom" == "month") = true then _
      else if ("custom" == "year") = true then _
      else if ("custom" == "custom" && truthy (some s) && truthy (some t)) = true
        then ((some s).getD "", (some t).getD "")
      else _) = (s, t)
    rw [es, et]
    simp
  · intro cs ce hor
    rw [hmonth]
    show (if ("custom" == "today") = true then _
      else if ("custom" == "week") = true then _
      else if ("custom" == "month") = true then _
      else if ("custom" == "year") = true then _
      else if ("custom" == "custom" && truthy cs && truthy ce) = true then _
      else (isoStr { today with day := 1 }, isoStr (monthEnd today))) = _
    rcases hor with hcs | hce
    · rw [hcs]; simp
    · rw [hce]; simp

/-- Witness for C9. -/
theorem C9_custom_requires_both_bounds_witness :
    get_date_range ⟨2025, 3, 10⟩ "custom"
      (some "2025-01-01") (some "2025-02-02") = ("2025-01-01", "2025-02-02") ∧
    get_date_range ⟨2025, 3, 10⟩ "custom" (some "") (some "2025-02-02") =
      get_date_range ⟨2025, 3, 10⟩ "month" none none ∧
    get_date_range ⟨2025, 3, 10⟩ "custom" (some "2025-01-01") none =
      get_date_range ⟨2025, 3, 10⟩ "month" none none := by
  refine ⟨?_, ?_, ?_⟩
  · exact (C9_custom_requires_both_bounds ⟨2025, 3, 10⟩).1
      "2025-01-01" "2025-02-02" (by decide) (by decide)
  · exact (C9_custom_requires_both_bounds ⟨2025, 3, 10⟩).2
      (some "") (some "2025-02-02") (Or.inl (by decide))
  · exact (C9_custom_requires_both_bounds ⟨2025, 3, 10⟩).2
      (some "2025-01-01") none (Or.inr (by decide))

/-! ### Evaluator infrastructure lemmas -/

/-- The pre-dedup threshold policy of the spec (section 4.4): exceeded at
100 percent, warning at 80, in strict priority order. -/
def candidateKind (p : ℚ) : Option String :=
  if 100 ≤ p then some "exceeded"
  else if 80 ≤ p then some "warning"
  else none

/-- Mongo find_one on budgets by id. -/
def firstWithId (bs : List Budget) (i : String) : Option Budget :=
  bs.find? (fun b => b.id == i)

/-- All fields of a budget except the derived current_spent. -/
def budgetShape (b : Budget) :
    String × String × String × ℚ × String × String × String × Bool × ℚ :=
  (b.id, b.user_id, b.category, b.limit_amount, b.period, b.start_date,
    b.end_date, b.is_active, b.created_at)

lemma evalBudget_expenses (uid : String) (now : ℚ) (g : Nat → String)
    (db : DB) (b : Budget) : (evalBudget uid now g db b).expenses = db.expenses := rfl

lemma evalBudget_budgets (uid : String) (now : ℚ) (g : Nat → String)
    (db : DB) (b : Budget) :
    (evalBudget uid now g db b).budgets =
      updateFirstSpent db.budgets b.id (spentOf db.expenses uid b) := rfl

lemma evalBudget_alerts (uid : String) (now : ℚ) (g : Nat → String)
    (db : DB) (b : Budget) :
    (evalBudget uid now g db b).budget_alerts =
      db.budget_alerts ++
        stepAlerts db.budget_alerts uid now g b (spentOf db.expenses uid b)
          (pctOf (spentOf db.expenses uid b) b.limit_amount) := rfl

lemma stepAlerts_len (alerts : List BudgetAlert) (uid : String) (now : ℚ)
    (g : Nat → String) (b : Budget) (spent pct : ℚ) :
    (stepAlerts alerts uid now g b spent pct).length ≤ 1 := by
  unfold stepAlerts; split_ifs <;> simp

lemma stepAlerts_mem (alerts : List BudgetAlert) (uid : String) (now : ℚ)
    (g : Nat → String) (b : Budget) (spent pct : ℚ) (a : BudgetAlert)
    (ha : a ∈ stepAlerts alerts uid now g b spent pct) :
    a.budget_id = b.id ∧ a.created_at = now ∧
      recentAlert alerts b.id a.alert_type now = false := by
  unfold stepAlerts at ha
  split_ifs at ha with h1 h2
  · rw [List.mem_singleton] at ha
    subst ha
    refine ⟨rfl, rfl, ?_⟩
    have := (Bool.and_eq_true _ _).mp h1
    simpa using this.2
  · rw [List.mem_singleton] at ha
    subst ha
    refine ⟨rfl, rfl, ?_⟩
    have := (Bool.and_eq_true _ _).mp h2
    simpa using this.2
  · simp at ha

lemma recentAlert_append (l t : List BudgetAlert) (bid kind : String)
    (now : ℚ) :
    recentAlert (l ++ t) bid kind now =
      (recentAlert l bid kind now || recentAlert t bid kind now) := by
  unfold recentAlert; exact List.any_append

lemma recentAlert_of_mem (alerts : List BudgetAlert) (a : BudgetAlert)
    (ha : a ∈ alerts) (now : ℚ) (hc : now - oneDay ≤ a.created_at) :
    recentAlert alerts a.budget_id a.alert_type now = true := by
  unfold recentAlert
  rw [List.any_eq_true]
  exact ⟨a, ha, by simp [hc]⟩

lemma recentAlert_none (alerts : List BudgetAlert) (bid kind : String)
    (now : ℚ) (h : ∀ a ∈ alerts, ¬ (a.budget_id = bid ∧ a.alert_type = kind)) :
    recentAlert alerts bid kind now = false := by
  unfold recentAlert
  rw [List.any_eq_false]
  intro a ha
  simp only [Bool.and_eq_true, beq_iff_eq, Bool.not_eq_true, decide_eq_true_eq]
  intro hcon
  exact absurd ⟨hcon.1.1, hcon.1.2⟩ (h a ha)

lemma updateFirstSpent_ids (bs : List Budget) (i : String) (v : ℚ) :
    (updateFirstSpent bs i v).map Budget.id = bs.map Budget.id := by
  induction bs with
  | nil => rfl
  | cons b rest ih =>
    unfold updateFirstSpent
    split_ifs <;> simp [ih]

lemma updateFirstSpent_shape (bs : List Budget) (i : String) (v : ℚ) :
    (updateFirstSpent bs i v).map budgetShape = bs.map budgetShape := by
  induction bs with
  | nil => rfl
  | cons b rest ih =>
    unfold updateFirstSpent
    split_ifs <;> simp [ih, budgetShape]

lemma firstWithId_nil (i : String) : firstWithId [] i = none := rfl

lemma firstWithId_cons (b : Budget) (rest : List Budget) (i : String) :
    firstWithId (b :: rest) i =
      if b.id == i then some b else firstWithId rest i := by
  unfold firstWithId
  rw [List.find?_cons]
  by_cases h : (b.id == i) = true
  · rw [h]; rfl
  · rw [Bool.not_eq_true] at h
    rw [h]; rfl

lemma firstWithId_update_self (bs : List Budget) (i : String) (v : ℚ) :
    firstWithId (updateFirstSpent bs i v) i =
      (firstWithId bs i).map (fun r => { r with current_spent := v }) := by
  induction bs with
  | nil => rfl
  | cons b rest ih =>
    unfold updateFirstSpent
    by_cases h : (b.id == i) = true
    · rw [if_pos h, firstWithId_cons, firstWithId_cons]
      have hid : (({ b with current_spent := v } : Budget).id == i) = true := h
      rw [if_pos hid, if_pos h]
      rfl
    · rw [if_neg h, firstWithId_cons, firstWithId_cons, if_neg h, if_neg h]
      exact ih

lemma firstWithId_update_ne (bs : List Budget) (i j : String) (v : ℚ)
    (hne : ¬ (j = i)) :
    firstWithId (updateFirstSpent bs i v) j = firstWithId bs j := by
  induction bs with
  | nil => rfl
  | cons b rest ih =>
    unfold updateFirstSpent
    by_cases h : (b.id == i) = true
    · have hbi : b.id = i := by simpa using h
      have hbj : ¬ ((b.id == j) = true) := by
        intro hc
        have : b.id = j := by simpa using hc
        exact hne (this.symm.trans hbi)
      rw [if_pos h, firstWithId_cons, firstWithId_cons]
      have hbj' : ¬ ((({ b with current_spent := v } : Budget).id == j) = true) := hbj
      rw [if_neg hbj', if_neg hbj]
    · rw [if_neg h, firstWithId_cons, firstWithId_cons]
      by_cases hbj : (b.id == j) = true
      · rw [if_pos hbj, if_pos hbj]
      · rw [if_neg hbj, if_neg hbj]
        exact ih

lemma updateFirstSpent_noop (bs : List Budget) (i : String) (v : ℚ)
    (h : ∀ r, firstWithId bs i = some r → r.current_spent = v) :
    updateFirstSpent bs i v = bs := by
  induction bs with
  | nil => rfl
  | cons b rest ih =>
    unfold updateFirstSpent
    by_cases hb : (b.id == i) = true
    · have hr : b.current_spent = v := by
        apply h b
        rw [firstWithId_cons, if_pos hb]
      rw [if_pos hb]
      congr 1
      rw [← hr]
    · rw [if_neg hb]
      congr 1
      apply ih
      intro r hr
      apply h r
      rw [firstWithId_cons, if_neg hb]
      exact hr

lemma budgetShape_fields (b b' : Budget) (h : budgetShape b = budgetShape b') :
    b.id = b'.id ∧ b.user_id = b'.user_id ∧ b.category = b'.category ∧
    b.limit_amount = b'.limit_amount ∧ b.period = b'.period ∧
    b.start_date = b'.start_date ∧ b.end_date = b'.end_date ∧
    b.is_active = b'.is_active ∧ b.created_at = b'.created_at := by
  unfold budgetShape at h
  simpa only [Prod.mk.injEq] using h

lemma spentOf_congr (exps : List Expense) (uid : String) (b b' : Budget)
    (h : budgetShape b = budgetShape b') :
    spentOf exps uid b = spentOf exps uid b' := by
  obtain ⟨-, -, h3, -, -, h6, h7, -, -⟩ := budgetShape_fields b b' h
  unfold spentOf matchExp
  rw [h3, h6, h7]

lemma ids_of_shape (l₁ l₂ : List Budget)
    (h : l₁.map budgetShape = l₂.map budgetShape) :
    l₁.map Budget.id = l₂.map Budget.id := by
  have h2 := congrArg (List.map Prod.fst) h
  rw [List.map_map, List.map_map] at h2
  have hfun : (Prod.fst ∘ budgetShape) = Budget.id := rfl
  rw [hfun] at h2
  exact h2

lemma pass_expenses (uid : String) (now : ℚ) (g : Nat → String) :
    ∀ (bs : List Budget) (db : DB),
      (bs.foldl (evalBudget uid now g) db).expenses = db.expenses := by
  intro bs
  induction bs with
  | nil => intro db; rfl
  | cons b rest ih =>
    intro db
    rw [List.foldl_cons, ih]
    exact evalBudget_expenses uid now g db b

lemma pass_shape (uid : String) (now : ℚ) (g : Nat → String) :
    ∀ (bs : List Budget) (db : DB),
      (bs.foldl (evalBudget uid now g) db).budgets.map budgetShape =
        db.budgets.map budgetShape := by
  intro bs
  induction bs with
  | nil => intro db; rfl
  | cons b rest ih =>
    intro db
    rw [List.foldl_cons, ih, evalBudget_budgets, updateFirstSpent_shape]

lemma pass_ids (uid : String) (now : ℚ) (g : Nat → String)
    (bs : List Budget) (db : DB) :
    (bs.foldl (evalBudget uid now g) db).budgets.map Budget.id =
      db.budgets.map Budget.id :=
  ids_of_shape _ _ (pass_shape uid now g bs db)

lemma pass_alerts (uid : String) (now : ℚ) (g : Nat → String) :
    ∀ (bs : List Budget) (db : DB),
      ∃ t, (bs.foldl (evalBudget uid now g) db).budget_alerts =
          db.budget_alerts ++ t ∧
        ∀ a ∈ t, a.created_at = now ∧ a.budget_id ∈ bs.map Budget.id ∧
          recentAlert db.budget_alerts a.budget_id a.alert_type now = false := by
  intro bs
  induction bs with
  | nil =>
    intro db
    exact ⟨[], by simp, by simp⟩
  | cons b rest ih =>
    intro db
    obtain ⟨t₁, ht₁, hp₁⟩ := ih (evalBudget uid now g db b)
    refine ⟨stepAlerts db.budget_alerts uid now g b (spentOf db.expenses uid b)
      (pctOf (spentOf db.expenses uid b) b.limit_amount) ++ t₁, ?_, ?_⟩
    · rw [List.foldl_cons, ht₁, evalBudget_alerts, List.append_assoc]
    · intro a ha
      rcases List.mem_append.mp ha with h0 | h1
      · obtain ⟨hbid, hca, hrec⟩ := stepAlerts_mem _ _ _ _ _ _ _ _ h0
        refine ⟨hca, ?_, ?_⟩
        · rw [List.map_cons, hbid]
          exact List.mem_cons_self _ _
        · rw [hbid]
          exact hrec
      · obtain ⟨hca, hbid, hrec⟩ := hp₁ a h1
        refine ⟨hca, ?_, ?_⟩
        · rw [List.map_cons]
          exact List.mem_cons_of_mem _ hbid
        · rw [evalBudget_alerts, recentAlert_append] at hrec
          exact (Bool.or_eq_false_iff.mp hrec).1

lemma pass_firstWithId_out (uid : String) (now : ℚ) (g : Nat → String) :
    ∀ (bs : List Budget) (db : DB) (i : String), i ∉ bs.map Budget.id →
      firstWithId ((bs.foldl (evalBudget uid now g) db).budgets) i =
        firstWithId db.budgets i := by
  intro bs
  induction bs with
  | nil => intro db i _; rfl
  | cons b rest ih =>
    intro db i hi
    rw [List.map_cons, List.mem_cons] at hi
    push_neg at hi
    rw [List.foldl_cons, ih _ _ hi.2, evalBudget_budgets,
      firstWithId_update_ne _ _ _ _ hi.1]

lemma pass_spent_written (uid : String) (now : ℚ) (g : Nat → String) :
    ∀ (bs : List Budget) (db : DB) (b : Budget), b ∈ bs →
      (bs.map Budget.id).Nodup →
      firstWithId ((bs.foldl (evalBudget uid now g) db).budgets) b.id =
        (firstWithId db.budgets b.id).map
          (fun r => { r with current_spent := spentOf db.expenses uid b }) := by
  intro bs
  induction bs with
  | nil => intro db b hb _; exact absurd hb (List.not_mem_nil _)
  | cons b' rest ih =>
    intro db b hb hnd
    rw [List.map_cons, List.nodup_cons] at hnd
    rw [List.foldl_cons]
    rcases List.mem_cons.mp hb with rfl | hbr
    · rw [pass_firstWithId_out uid now g rest _ _ hnd.1, evalBudget_budgets,
        firstWithId_update_self]
    · have hne : ¬ (b.id = b'.id) := by
        intro hc
        exact hnd.1 (hc ▸ List.mem_map_of_mem Budget.id hbr)
      rw [ih (evalBudget uid now g db b') b hbr hnd.2, evalBudget_expenses,
        evalBudget_budgets, firstWithId_update_ne _ _ _ _ hne]

lemma firstWithId_of_mem :
    ∀ (bs : List Budget) (b : Budget), b ∈ bs → (bs.map Budget.id).Nodup →
      firstWithId bs b.id = some b := by
  intro bs
  induction bs with
  | nil => intro b hb _; exact absurd hb (List.not_mem_nil _)
  | cons b' rest ih =>
    intro b hb hnd
    rw [List.map_cons, List.nodup_cons] at hnd
    rcases List.mem_cons.mp hb with rfl | hbr
    · rw [firstWithId_cons, if_pos (by simp)]
    · have hne : (b'.id == b.id) = false := by
        simp only [beq_eq_false_iff_ne]
        intro hc
        exact hnd.1 (hc ▸ List.mem_map_of_mem Budget.id hbr)
      rw [firstWithId_cons, if_neg (by simp [hne])]
      exact ih b hbr hnd.2

/-! #### Case equations for the alert insertion step -/

lemma stepAlerts_exc (alerts : List BudgetAlert) (uid : String) (now : ℚ)
    (g : Nat → String) (b : Budget) (spent pct : ℚ) (h100 : 100 ≤ pct)
    (hre : recentAlert alerts b.id "exceeded" now = false) :
    stepAlerts alerts uid now g b spent pct =
      [mkAlert (g alerts.length) uid b.id
        (exceededMsg b.category spent b.limit_amount) "exceeded" pct now] := by
  unfold stepAlerts
  rw [if_pos (show (decide (100 ≤ pct) &&
    ! recentAlert alerts b.id "exceeded" now) = true by simp [h100, hre])]

lemma stepAlerts_exc_supp (alerts : List BudgetAlert) (uid : String)
    (now : ℚ) (g : Nat → String) (b : Budget) (spent pct : ℚ)
    (h100 : 100 ≤ pct)
    (hre : recentAlert alerts b.id "exceeded" now = true)
    (hwa : recentAlert alerts b.id "warning" now = false) :
    stepAlerts alerts uid now g b spent pct =
      [mkAlert (g alerts.length) uid b.id
        (warningMsg b.category pct spent b.limit_amount) "warning" pct now] := by
  unfold stepAlerts
  rw [if_neg (show ¬ ((decide (100 ≤ pct) &&
      ! recentAlert alerts b.id "exceeded" now) = true) by simp [hre]),
    if_pos (show (decide (80 ≤ pct) &&
      ! recentAlert alerts b.id "warning" now) = true by
        simp only [hwa, Bool.not_false, Bool.and_true, decide_eq_true_eq]
        linarith)]

lemma stepAlerts_warn (alerts : List BudgetAlert) (uid : String) (now : ℚ)
    (g : Nat → String) (b : Budget) (spent pct : ℚ) (h80 : 80 ≤ pct)
    (hlt : ¬ (100 ≤ pct))
    (hwa : recentAlert alerts b.id "warning" now = false) :
    stepAlerts alerts uid now g b spent pct =
      [mkAlert (g alerts.length) uid b.id
        (warningMsg b.category pct spent b.limit_amount) "warning" pct now] := by
  unfold stepAlerts
  rw [if_neg (show ¬ ((decide (100 ≤ pct) &&
      ! recentAlert alerts b.id "exceeded" now) = true) by simp [hlt]),
    if_pos (show (decide (80 ≤ pct) &&
      ! recentAlert alerts b.id "warning" now) = true by simp [h80, hwa])]

lemma stepAlerts_nil_low (alerts : List BudgetAlert) (uid : String)
    (now : ℚ) (g : Nat → String) (b : Budget) (spent pct : ℚ)
    (hlt : ¬ (80 ≤ pct)) :
    stepAlerts alerts uid now g b spent pct = [] := by
  have hlt100 : ¬ (100 ≤ pct) := fun hc => hlt (by linarith)
  unfold stepAlerts
  rw [if_neg (show ¬ ((decide (100 ≤ pct) &&
      ! recentAlert alerts b.id "exceeded" now) = true) by simp [hlt100]),
    if_neg (show ¬ ((decide (80 ≤ pct) &&
      ! recentAlert alerts b.id "warning" now) = true) by simp [hlt])]

lemma stepAlerts_nil_supp (alerts : List BudgetAlert) (uid : String)
    (now : ℚ) (g : Nat → String) (b : Budget) (spent pct : ℚ)
    (hwa : recentAlert alerts b.id "warning" now = true)
    (hsupp : ¬ (100 ≤ pct) ∨ recentAlert alerts b.id "exceeded" now = true) :
    stepAlerts alerts uid now g b spent pct = [] := by
  unfold stepAlerts
  rcases hsupp with h | h
  · rw [if_neg (show ¬ ((decide (100 ≤ pct) &&
        ! recentAlert alerts b.id "exceeded" now) = true) by simp [h]),
      if_neg (show ¬ ((decide (80 ≤ pct) &&
        ! recentAlert alerts b.id "warning" now) = true) by simp [hwa])]
  · rw [if_neg (show ¬ ((decide (100 ≤ pct) &&
        ! recentAlert alerts b.id "exceeded" now) = true) by simp [h]),
      if_neg (show ¬ ((decide (80 ≤ pct) &&
        ! recentAlert alerts b.id "warning" now) = true) by simp [hwa])]

/-- For a candidate kind determined by the threshold policy, the step
inserts an alert of that kind exactly when no recent alert of the same
kind for the same budget exists. -/
lemma stepAlerts_insert_iff (alerts : List BudgetAlert) (uid : String)
    (now : ℚ) (g : Nat → String) (b : Budget) (spent pct : ℚ) (k : String)
    (hc : candidateKind pct = some k) :
    ((stepAlerts alerts uid now g b spent pct).any
        (fun a => a.budget_id == b.id && a.alert_type == k) = true) ↔
      recentAlert alerts b.id k now = false := by
  unfold candidateKind at hc
  by_cases h100 : (100 : ℚ) ≤ pct
  · rw [if_pos h100] at hc
    injection hc with hk
    subst hk
    by_cases hre : recentAlert alerts b.id "exceeded" now = true
    · rw [hre]
      simp only [Bool.true_eq_false, iff_false, Bool.not_eq_true]
      by_cases hwa : recentAlert alerts b.id "warning" now = true
      · rw [stepAlerts_nil_supp alerts uid now g b spent pct hwa (Or.inr hre)]
        rfl
      · rw [Bool.not_eq_true] at hwa
        rw [stepAlerts_exc_supp alerts uid now g b spent pct h100 hre hwa]
        simp [mkAlert]
    · rw [Bool.not_eq_true] at hre
      rw [hre]
      simp only [iff_true]
      rw [stepAlerts_exc alerts uid now g b spent pct h100 hre]
      simp [mkAlert]
  · rw [if_neg h100] at hc
    by_cases h80 : (80 : ℚ) ≤ pct
    · rw [if_pos h80] at hc
      injection hc with hk
      subst hk
      by_cases hwa : recentAlert alerts b.id "warning" now = true
      · rw [hwa]
        simp only [Bool.true_eq_false, iff_false, Bool.not_eq_true]
        rw [stepAlerts_nil_supp alerts uid now g b spent pct hwa (Or.inl h100)]
        rfl
      · rw [Bool.not_eq_true] at hwa
        rw [hwa]
        simp only [iff_true]
        rw [stepAlerts_warn alerts uid now g b spent pct h80 h100 hwa]
        simp [mkAlert]
    · rw [if_neg h80] at hc
      exact absurd hc (Option.some_ne_none _).symm.elim

/-- Within a pass, a candidate of kind k for an evaluated budget is
inserted iff no alert of that kind for that budget was recent at the
start of the pass (budget ids assumed distinct, as uuids are). -/
lemma pass_insert_iff (uid : String) (now : ℚ) (g : Nat → String) :
    ∀ (bs : List Budget) (db : DB) (b : Budget) (k : String), b ∈ bs →
      (bs.map Budget.id).Nodup →
      candidateKind (pctOf (spentOf db.expenses uid b) b.limit_amount) = some k →
      ((((bs.foldl (evalBudget uid now g) db).budget_alerts.drop
          db.budget_alerts.length).any
          (fun a => a.budget_id == b.id && a.alert_type == k)) = true ↔
        recentAlert db.budget_alerts b.id k now = false) := by
  intro bs
  induction bs with
  | nil => intro db b k hb _ _; exact absurd hb (List.not_mem_nil _)
  | cons b' rest ih =>
    intro db b k hb hnd hc
    rw [List.map_cons, List.nodup_cons] at hnd
    rw [List.foldl_cons]
    obtain ⟨t₁, ht₁, hp₁⟩ := pass_alerts uid now g rest (evalBudget uid now g db b')
    rw [ht₁, evalBudget_alerts, List.append_assoc, List.drop_left,
      List.any_append]
    rcases List.mem_cons.mp hb with rfl | hbr
    · have h₁ : t₁.any (fun a => a.budget_id == b.id && a.alert_type == k)
          = false := by
        rw [List.any_eq_false]
        intro a ha
        obtain ⟨-, hbid, -⟩ := hp₁ a ha
        simp only [Bool.and_eq_true, beq_iff_eq, not_and]
        intro hcon _
        exact hnd.1 (hcon ▸ hbid)
      rw [h₁, Bool.or_false]
      exact stepAlerts_insert_iff db.budget_alerts uid now g b _ _ k hc
    · have hne : ¬ (b.id = b'.id) := by
        intro hcon
        exact hnd.1 (hcon ▸ List.mem_map_of_mem Budget.id hbr)
      have h₀ : (stepAlerts db.budget_alerts uid now g b'
          (spentOf db.expenses uid b')
          (pctOf (spentOf db.expenses uid b') b'.limit_amount)).any
          (fun a => a.budget_id == b.id && a.alert_type == k) = false := by
        rw [List.any_eq_false]
        intro a ha
        obtain ⟨hbid, -, -⟩ := stepAlerts_mem _ _ _ _ _ _ _ _ ha
        simp only [Bool.and_eq_true, beq_iff_eq, not_and]
        intro hcon _
        exact hne (hcon ▸ hbid)
      rw [h₀, Bool.false_or]
      have hc' : candidateKind (pctOf
          (spentOf (evalBudget uid now g db b').expenses uid b)
          b.limit_amount) = some k := by
        rw [evalBudget_expenses]
        exact hc
      have hih := ih (evalBudget uid now g db b') b k hbr hnd.2 hc'
      rw [ht₁, List.drop_left] at hih
      rw [hih, evalBudget_alerts, recentAlert_append]
      have hstep : recentAlert (stepAlerts db.budget_alerts uid now g b'
          (spentOf db.expenses uid b')
          (pctOf (spentOf db.expenses uid b') b'.limit_amount))
          b.id k now = false := by
        apply recentAlert_none
        intro a ha
        obtain ⟨hbid, -, -⟩ := stepAlerts_mem _ _ _ _ _ _ _ _ ha
        intro hcon
        exact hne (hcon.1 ▸ hbid)
      rw [hstep, Bool.or_false]

/-- A pass whose spend recomputation matches the stored values leaves the
budgets collection unchanged. -/
lemma pass_noop (uid : String) (now : ℚ) (g : Nat → String) :
    ∀ (bs : List Budget) (db : DB),
      (∀ b ∈ bs, ∀ r, firstWithId db.budgets b.id = some r →
        r.current_spent = spentOf db.expenses uid b) →
      (bs.foldl (evalBudget uid now g) db).budgets = db.budgets := by
  intro bs
  induction bs with
  | nil => intro db _; rfl
  | cons b rest ih =>
    intro db h
    rw [List.foldl_cons]
    have hb : (evalBudget uid now g db b).budgets = db.budgets := by
      rw [evalBudget_budgets]
      apply updateFirstSpent_noop
      intro r hr
      exact h b (List.mem_cons_self _ _) r hr
    have hrest := ih (evalBudget uid now g db b) (by
      intro b' hb' r hr
      rw [hb] at hr
      rw [evalBudget_expenses]
      exact h b' (List.mem_cons_of_mem _ hb') r hr)
    rw [hrest, hb]

lemma filter_active_shape (uid : String) :
    ∀ (l₁ l₂ : List Budget), l₁.map budgetShape = l₂.map budgetShape →
      (l₁.filter (fun b => b.user_id == uid && b.is_active)).map budgetShape =
        (l₂.filter (fun b => b.user_id == uid && b.is_active)).map budgetShape := by
  intro l₁
  induction l₁ with
  | nil =>
    intro l₂ h
    cases l₂ with
    | nil => rfl
    | cons a' r' => simp at h
  | cons a r ih =>
    intro l₂ h
    cases l₂ with
    | nil => simp at h
    | cons a' r' =>
      rw [List.map_cons, List.map_cons] at h
      injection h with h1 h2
      obtain ⟨-, hu, -, -, -, -, -, hact, -⟩ := budgetShape_fields a a' h1
      rw [List.filter_cons, List.filter_cons]
      have hsame : (a.user_id == uid && a.is_active)
          = (a'.user_id == uid && a'.is_active) := by rw [hu, hact]
      rw [hsame]
      by_cases hp : (a'.user_id == uid && a'.is_active) = true
      · rw [if_pos hp, if_pos hp, List.map_cons, List.map_cons, h1, ih r' h2]
      · rw [if_neg hp, if_neg hp]
        exact ih r' h2

lemma mem_of_map_shape (l₁ l₂ : List Budget)
    (h : l₁.map budgetShape = l₂.map budgetShape) (b : Budget)
    (hb : b ∈ l₁) : ∃ b' ∈ l₂, budgetShape b = budgetShape b' := by
  have hmem : budgetShape b ∈ l₂.map budgetShape :=
    h ▸ List.mem_map_of_mem budgetShape hb
  obtain ⟨b', hb', he⟩ := List.mem_map.mp hmem
  exact ⟨b', hb', he.symm⟩

lemma active_mem (db : DB) (uid : String) (b : Budget)
    (hb : b ∈ activeBudgetsOf db uid) : b ∈ db.budgets :=
  List.mem_of_mem_filter (List.mem_of_mem_take hb)

lemma active_ids_nodup (db : DB) (uid : String)
    (hnd : (db.budgets.map Budget.id).Nodup) :
    ((activeBudgetsOf db uid).map Budget.id).Nodup := by
  apply List.Nodup.sublist ?_ hnd
  apply List.Sublist.map
  exact (List.take_sublist _ _).trans (List.filter_sublist _)

lemma active_shape (db₁ db₂ : DB) (uid : String)
    (h : db₁.budgets.map budgetShape = db₂.budgets.map budgetShape) :
    (activeBudgetsOf db₁ uid).map budgetShape =
      (activeBudgetsOf db₂ uid).map budgetShape := by
  unfold activeBudgetsOf
  rw [List.map_take, List.map_take, filter_active_shape uid _ _ h]

lemma check_budget_alerts_eq (db : DB) (uid : String) (now : ℚ)
    (g : Nat → String) :
    check_budget_alerts db uid now g =
      (activeBudgetsOf db uid).foldl (evalBudget uid now g) db := rfl

/-- An immediately repeated pass recomputes the same spends and therefore
rewrites every stored current_spent with its existing value: the budgets
collection is unchanged by the second pass. -/
lemma pass_twice_budgets (db : DB) (uid : String) (now₁ now₂ : ℚ)
    (g₁ g₂ : Nat → String) (hnd : (db.budgets.map Budget.id).Nodup) :
    (check_budget_alerts (check_budget_alerts db uid now₁ g₁) uid now₂ g₂).budgets
      = (check_budget_alerts db uid now₁ g₁).budgets := by
  have hshape : (check_budget_alerts db uid now₁ g₁).budgets.map budgetShape
      = db.budgets.map budgetShape := by
    rw [check_budget_alerts_eq]
    exact pass_shape uid now₁ g₁ _ db
  have hids : (check_budget_alerts db uid now₁ g₁).budgets.map Budget.id
      = db.budgets.map Budget.id := by
    rw [check_budget_alerts_eq]
    exact pass_ids uid now₁ g₁ _ db
  have hnd₁ : ((check_budget_alerts db uid now₁ g₁).budgets.map Budget.id).Nodup := by
    rw [hids]; exact hnd
  have hexp : (check_budget_alerts db uid now₁ g₁).expenses = db.expenses := by
    rw [check_budget_alerts_eq]
    exact pass_expenses uid now₁ g₁ _ db
  rw [check_budget_alerts_eq (check_budget_alerts db uid now₁ g₁) uid now₂ g₂]
  apply pass_noop
  intro b' hb' r hr
  have hb'db : b' ∈ (check_budget_alerts db uid now₁ g₁).budgets :=
    active_mem _ _ _ hb'
  have hfind : firstWithId (check_budget_alerts db uid now₁ g₁).budgets b'.id
      = some b' := firstWithId_of_mem _ _ hb'db hnd₁
  rw [hfind] at hr
  injection hr with hr'
  subst hr'
  rw [hexp]
  have hcorr := active_shape (check_budget_alerts db uid now₁ g₁) db uid hshape
  obtain ⟨b, hbmem, hbs⟩ := mem_of_map_shape _ _ hcorr b' hb'
  have hw := pass_spent_written uid now₁ g₁ (activeBudgetsOf db uid) db b
    hbmem (active_ids_nodup db uid hnd)
  have hbdb : b ∈ db.budgets := active_mem db uid b hbmem
  rw [firstWithId_of_mem db.budgets b hbdb hnd] at hw
  rw [← check_budget_alerts_eq] at hw
  obtain ⟨hid, -⟩ := budgetShape_fields b' b hbs
  rw [← hid] at hw
  rw [hfind] at hw
  injection hw with heq
  have hcs := congrArg Budget.current_spent heq
  rw [spentOf_congr db.expenses uid b' b hbs]
  exact hcs

/-! ### Concrete sample states used by witnesses and counterexamples -/

/-- A sample uuid generator. -/
def gW : Nat → String := fun n => toString n

/-- A sample monthly budget of 100 for Food. -/
def budW : Budget :=
  { id := "b1", user_id := "u", category := "Food", limit_amount := 100,
    period := "monthly", start_date := "2025-01-01",
    end_date := "2025-01-31", current_spent := 0, is_active := true,
    created_at := 0 }

/-- A sample expense of 85 in Food (85 percent of budW). -/
def expW : Expense :=
  { id := "e1", user_id := "u", title := "lunch", amount := 85,
    category := "Food", type := "expense", description := none,
    date := "2025-01-15", created_at := 0 }

/-- State with one budget at 85 percent and no alerts. -/
def dbW : DB := { expenses := [expW], budgets := [budW], budget_alerts := [] }

/-! ### Claim C2: deduplication window and repeated evaluation -/

/-- C2: for every budget evaluated in a pass, a threshold candidate of
kind k is inserted iff no alert of the same kind for the same budget is
recent (created at or after now minus 24 hours); the evaluator creates no
transactions; and a second pass run in immediate succession recomputes the
same current_spent values (leaving the stored budgets unchanged) and
inserts no alert duplicating a kind the first pass inserted for the same
budget. -/
theorem C2_dedup_and_idempotence (db : DB) (uid : String) (now₁ now₂ : ℚ)
    (g₁ g₂ : Nat → String) (hnd : (db.budgets.map Budget.id).Nodup)
    (_h12 : now₁ ≤ now₂) (h21 : now₂ ≤ now₁ + oneDay) :
    (∀ b ∈ activeBudgetsOf db uid, ∀ k : String,
      candidateKind (pctOf (spentOf db.expenses uid b) b.limit_amount) =
        some k →
      ((((check_budget_alerts db uid now₁ g₁).budget_alerts.drop
          db.budget_alerts.length).any
          (fun a => a.budget_id == b.id && a.alert_type == k)) = true ↔
        recentAlert db.budget_alerts b.id k now₁ = false)) ∧
    (check_budget_alerts db uid now₁ g₁).expenses = db.expenses ∧
    (check_budget_alerts (check_budget_alerts db uid now₁ g₁) uid now₂
      g₂).budgets = (check_budget_alerts db uid now₁ g₁).budgets ∧
    (∀ a₂ ∈ (check_budget_alerts (check_budget_alerts db uid now₁ g₁) uid
        now₂ g₂).budget_alerts.drop
        (check_budget_alerts db uid now₁ g₁).budget_alerts.length,
      ∀ a₁ ∈ (check_budget_alerts db uid now₁ g₁).budget_alerts.drop
        db.budget_alerts.length,
      ¬ (a₂.budget_id = a₁.budget_id ∧ a₂.alert_type = a₁.alert_type)) := by
  refine ⟨?_, ?_, pass_twice_budgets db uid now₁ now₂ g₁ g₂ hnd, ?_⟩
  · intro b hb k hc
    rw [check_budget_alerts_eq]
    exact pass_insert_iff uid now₁ g₁ _ db b k hb
      (active_ids_nodup db uid hnd) hc
  · rw [check_budget_alerts_eq]
    exact pass_expenses uid now₁ g₁ _ db
  · intro a₂ ha₂ a₁ ha₁ hcon
    obtain ⟨t₁, ht₁, hp₁⟩ :=
      pass_alerts uid now₁ g₁ (activeBudgetsOf db uid) db
    obtain ⟨t₂, ht₂, hp₂⟩ := pass_alerts uid now₂ g₂
      (activeBudgetsOf (check_budget_alerts db uid now₁ g₁) uid)
      (check_budget_alerts db uid now₁ g₁)
    rw [check_budget_alerts_eq (check_budget_alerts db uid now₁ g₁) uid
      now₂ g₂, ht₂, List.drop_left] at ha₂
    rw [check_budget_alerts_eq db uid now₁ g₁, ht₁, List.drop_left] at ha₁
    obtain ⟨-, -, hrec₂⟩ := hp₂ a₂ ha₂
    obtain ⟨hca₁, -, -⟩ := hp₁ a₁ ha₁
    have ha₁mem : a₁ ∈ (check_budget_alerts db uid now₁ g₁).budget_alerts := by
      rw [check_budget_alerts_eq, ht₁]
      exact List.mem_append_right _ ha₁
    have htrue := recentAlert_of_mem _ a₁ ha₁mem now₂
      (by rw [hca₁]; linarith)
    rw [← hcon.1, ← hcon.2] at htrue
    rw [htrue] at hrec₂
    simp at hrec₂

/-- Witness for C2 on a concrete state: one budget at 85 percent, two
immediate passes. -/
theorem C2_dedup_and_idempotence_witness :
    (dbW.budgets.map Budget.id).Nodup ∧
    (check_budget_alerts dbW "u" 1000 gW).expenses = dbW.expenses ∧
    (check_budget_alerts (check_budget_alerts dbW "u" 1000 gW) "u" 1000
      gW).budgets = (check_budget_alerts dbW "u" 1000 gW).budgets := by
  refine ⟨by decide, ?_, ?_⟩
  · exact (C2_dedup_and_idempotence dbW "u" 1000 1000 gW gW (by decide)
      le_rfl (by norm_num [oneDay])).2.1
  · exact (C2_dedup_and_idempotence dbW "u" 1000 1000 gW gW (by decide)
      le_rfl (by norm_num [oneDay])).2.2.1

/-! ### Claim C1: threshold policy -/

/-- An expense of 105 in Food (105 percent of budW). -/
def expC1 : Expense :=
  { id := "e1", user_id := "u", title := "shopping", amount := 105,
    category := "Food", type := "expense", description := none,
    date := "2025-01-15", created_at := 0 }

/-- A recent exceeded alert for budW. -/
def alertC1 : BudgetAlert :=
  { id := "a0", user_id := "u", budget_id := "b1", message := "",
    alert_type := "exceeded", percentage := 105, created_at := 1000,
    is_read := false }

/-- State at 105 percent with the exceeded alert already recent. -/
def dbC1 : DB :=
  { expenses := [expC1], budgets := [budW], budget_alerts := [alertC1] }

/-- Evaluate spentOf on a small store: the 1000-cap take is the whole
filtered list. -/
lemma spentOf_small (exps : List Expense) (uid : String) (b : Budget)
    (hlen : (exps.filter (matchExp uid b)).length ≤ 1000) :
    spentOf exps uid b =
      ((exps.filter (matchExp uid b)).map (fun e => e.amount)).sum := by
  unfold spentOf
  rw [List.take_of_length_le hlen]

lemma dbC1_spent : spentOf dbC1.expenses "u" budW = 105 := by
  rw [spentOf_small _ _ _ (by decide)]
  have hm : matchExp "u" budW expC1 = true := by decide
  show ((List.filter (matchExp "u" budW) [expC1]).map
    (fun e => e.amount)).sum = 105
  rw [List.filter_cons, if_pos hm]
  simp [expC1]

lemma pct105 : pctOf 105 budW.limit_amount = 105 := by
  unfold pctOf
  rw [if_pos (show (0:ℚ) < budW.limit_amount by norm_num [budW])]
  norm_num [budW]

lemma dbC1_pct :
    pctOf (spentOf dbC1.expenses "u" budW) budW.limit_amount = 105 := by
  rw [dbC1_spent]
  exact pct105

lemma dbC1_exc_recent :
    recentAlert dbC1.budget_alerts budW.id "exceeded" 1000 = true :=
  recentAlert_of_mem dbC1.budget_alerts alertC1 (by simp [dbC1]) 1000
    (by norm_num [alertC1, oneDay])

lemma dbC1_warn_clear :
    recentAlert dbC1.budget_alerts budW.id "warning" 1000 = false := by
  apply recentAlert_none
  intro a ha
  simp only [dbC1, List.mem_singleton] at ha
  subst ha
  intro hcon
  exact absurd hcon.2 (by decide)

/-- Counterexample to C1 as stated: at percentage 105 (at least 100) the
pass fires a warning alert, because the exceeded candidate is suppressed
by its dedup window while the warning window is clear. -/
theorem C1_counterexample :
    100 ≤ pctOf (spentOf dbC1.expenses "u" budW) budW.limit_amount ∧
    ((check_budget_alerts dbC1 "u" 1000 gW).budget_alerts.drop 1).map
      (fun a => a.alert_type) = ["warning"] := by
  constructor
  · rw [dbC1_pct]
    norm_num
  · have hact : activeBudgetsOf dbC1 "u" = [budW] := by decide
    rw [check_budget_alerts_eq, hact, List.foldl_cons, List.foldl_nil,
      evalBudget_alerts, dbC1_spent, pct105,
      stepAlerts_exc_supp dbC1.budget_alerts "u" 1000 gW budW 105 105
        (by norm_num) dbC1_exc_recent dbC1_warn_clear]
    rfl

/-- C1 amended: the per-budget evaluation fires at most one alert; with a
clear exceeded window, percentage at least 100 fires exceeded; when the
exceeded candidate is suppressed by its window and the warning window is
clear, percentage at least 100 fires a warning instead; 80 to under 100
with a clear warning window fires warning; under 80 fires nothing; a
suppressed warning window fires nothing; and the percentage boundary facts
(spend equal to limit gives 100, 80 percent of limit gives 80, 79.999
percent gives under 80). -/
theorem C1_threshold_policy (db : DB) (uid : String) (now : ℚ)
    (g : Nat → String) (b : Budget) :
    ((evalBudget uid now g db b).budget_alerts.drop
      db.budget_alerts.length).length ≤ 1 ∧
    (100 ≤ pctOf (spentOf db.expenses uid b) b.limit_amount →
      recentAlert db.budget_alerts b.id "exceeded" now = false →
      ((evalBudget uid now g db b).budget_alerts.drop
        db.budget_alerts.length).map (fun a => a.alert_type) = ["exceeded"]) ∧
    (100 ≤ pctOf (spentOf db.expenses uid b) b.limit_amount →
      recentAlert db.budget_alerts b.id "exceeded" now = true →
      recentAlert db.budget_alerts b.id "warning" now = false →
      ((evalBudget uid now g db b).budget_alerts.drop
        db.budget_alerts.length).map (fun a => a.alert_type) = ["warning"]) ∧
    (80 ≤ pctOf (spentOf db.expenses uid b) b.limit_amount →
      ¬ (100 ≤ pctOf (spentOf db.expenses uid b) b.limit_amount) →
      recentAlert db.budget_alerts b.id "warning" now = false →
      ((evalBudget uid now g db b).budget_alerts.drop
        db.budget_alerts.length).map (fun a => a.alert_type) = ["warning"]) ∧
    (¬ (80 ≤ pctOf (spentOf db.expenses uid b) b.limit_amount) →
      (evalBudget uid now g db b).budget_alerts.drop
        db.budget_alerts.length = []) ∧
    (80 ≤ pctOf (spentOf db.expenses uid b) b.limit_amount →
      recentAlert db.budget_alerts b.id "warning" now = true →
      (¬ (100 ≤ pctOf (spentOf db.expenses uid b) b.limit_amount) ∨
        recentAlert db.budget_alerts b.id "exceeded" now = true) →
      (evalBudget uid now g db b).budget_alerts.drop
        db.budget_alerts.length = []) ∧
    (∀ lim s : ℚ, 0 < lim →
      (s = lim → pctOf s lim = 100) ∧
      (s = 80 / 100 * lim → pctOf s lim = 80) ∧
      (s = 79999 / 100000 * lim → pctOf s lim < 80)) := by
  have hdrop : (evalBudget uid now g db b).budget_alerts.drop
      db.budget_alerts.length =
      stepAlerts db.budget_alerts uid now g b (spentOf db.expenses uid b)
        (pctOf (spentOf db.expenses uid b) b.limit_amount) := by
    rw [evalBudget_alerts, List.drop_left]
  refine ⟨?_, ?_, ?_, ?_, ?_, ?_, ?_⟩
  · rw [hdrop]
    exact stepAlerts_len _ _ _ _ _ _ _
  · intro h100 hre
    rw [hdrop, stepAlerts_exc _ _ _ _ _ _ _ h100 hre]
    rfl
  · intro h100 hre hwa
    rw [hdrop, stepAlerts_exc_supp _ _ _ _ _ _ _ h100 hre hwa]
    rfl
  · intro h80 hlt hwa
    rw [hdrop, stepAlerts_warn _ _ _ _ _ _ _ h80 hlt hwa]
    rfl
  · intro hlt
    rw [hdrop, stepAlerts_nil_low _ _ _ _ _ _ _ hlt]
  · intro h80 hwa hsupp
    rw [hdrop, stepAlerts_nil_supp _ _ _ _ _ _ _ hwa hsupp]
  · intro lim s hl
    have hne : lim ≠ 0 := ne_of_gt hl
    refine ⟨?_, ?_, ?_⟩
    · intro hs
      subst hs
      unfold pctOf
      rw [if_pos hl, div_self hne, one_mul]
    · intro hs
      subst hs
      unfold pctOf
      rw [if_pos hl]
      field_simp
      ring
    · intro hs
      subst hs
      unfold pctOf
      rw [if_pos hl]
      have hcalc : 79999 / 100000 * lim / lim * 100 =
          79999 / 100000 * (lim / lim) * 100 := by ring
      rw [hcalc, div_self hne]
      norm_num

/-- Witness for C1 at the 105 percent state with a recent exceeded alert. -/
theorem C1_threshold_policy_witness :
    100 ≤ pctOf (spentOf dbC1.expenses "u" budW) budW.limit_amount ∧
    recentAlert dbC1.budget_alerts budW.id "exceeded" 1000 = true ∧
    recentAlert dbC1.budget_alerts budW.id "warning" 1000 = false ∧
    ((evalBudget "u" 1000 gW dbC1 budW).budget_alerts.drop
      dbC1.budget_alerts.length).map (fun a => a.alert_type) = ["warning"] ∧
    pctOf 100 100 = 100 ∧ pctOf 80 100 = 80 ∧
    pctOf (79999 / 1000) 100 < 80 := by
  refine ⟨?_, dbC1_exc_recent, dbC1_warn_clear, ?_, ?_, ?_, ?_⟩
  · rw [dbC1_pct]
    norm_num
  · exact (C1_threshold_policy dbC1 "u" 1000 gW budW).2.2.1
      (by rw [dbC1_pct]; norm_num) dbC1_exc_recent dbC1_warn_clear
  · exact ((C1_threshold_policy dbC1 "u" 1000 gW budW).2.2.2.2.2.2 100 100
      (by norm_num)).1 rfl
  · exact ((C1_threshold_policy dbC1 "u" 1000 gW budW).2.2.2.2.2.2 100 80
      (by norm_num)).2.1 (by norm_num)
  · exact ((C1_threshold_policy dbC1 "u" 1000 gW budW).2.2.2.2.2.2 100
      (79999 / 1000) (by norm_num)).2.2 (by norm_num)

/-! ### Claims C3 and C10: spend write-back and fetch caps -/

/-- A budget of 2000 for Food (so 1001 one-unit expenses stay below 80
percent). -/
def budT : Budget :=
  { id := "b1", user_id := "u", category := "Food", limit_amount := 2000,
    period := "monthly", start_date := "2025-01-01",
    end_date := "2025-01-31", current_spent := 0, is_active := true,
    created_at := 0 }

/-- A one-unit Food expense inside budT's period. -/
def expT : Expense :=
  { id := "e", user_id := "u", title := "coffee", amount := 1,
    category := "Food", type := "expense", description := none,
    date := "2025-01-10", created_at := 0 }

/-- State with 1001 matching transactions: one more than the fetch cap. -/
def dbC3 : DB :=
  { expenses := List.replicate 1001 expT, budgets := [budT],
    budget_alerts := [] }

lemma dbC3_filter :
    dbC3.expenses.filter (matchExp "u" budT) = List.replicate 1001 expT := by
  have hm : matchExp "u" budT expT = true := by decide
  show (List.replicate 1001 expT).filter (matchExp "u" budT) = _
  rw [List.filter_replicate_of_pos hm]

lemma dbC3_spent : spentOf dbC3.expenses "u" budT = 1000 := by
  unfold spentOf
  rw [dbC3_filter, List.take_replicate, List.map_replicate,
    List.sum_replicate]
  simp [expT, nsmul_eq_mul]

lemma dbC3_total :
    ((dbC3.expenses.filter (matchExp "u" budT)).map
      (fun e => e.amount)).sum = 1001 := by
  rw [dbC3_filter, List.map_replicate, List.sum_replicate]
  simp [expT, nsmul_eq_mul]

lemma dbC3_stored :
    firstWithId (check_budget_alerts dbC3 "u" 0 gW).budgets "b1" =
      some { budT with current_spent := 1000 } := by
  have hact : activeBudgetsOf dbC3 "u" = [budT] := by decide
  have hw := pass_spent_written "u" 0 gW (activeBudgetsOf dbC3 "u") dbC3 budT
    (by rw [hact]; exact List.mem_singleton.mpr rfl) (by rw [hact]; decide)
  rw [firstWithId_of_mem dbC3.budgets budT (by decide) (by decide)] at hw
  rw [dbC3_spent] at hw
  rw [check_budget_alerts_eq]
  exact hw

/-- C3 amended: after a pass, every budget among the first 100 active
budgets fetched for the user has its stored current_spent overwritten —
unconditionally, alert or not — with the sum of the amounts of the first
1000 transactions matching the budget's category, kind and period. -/
theorem C3_spent_writeback (db : DB) (uid : String) (now : ℚ)
    (g : Nat → String) (b : Budget)
    (hnd : (db.budgets.map Budget.id).Nodup)
    (hmem : b ∈ activeBudgetsOf db uid) :
    firstWithId (check_budget_alerts db uid now g).budgets b.id =
      some { b with current_spent := spentOf db.expenses uid b } := by
  have hw := pass_spent_written uid now g (activeBudgetsOf db uid) db b hmem
    (active_ids_nodup db uid hnd)
  rw [firstWithId_of_mem db.budgets b (active_mem db uid b hmem) hnd] at hw
  rw [check_budget_alerts_eq]
  exact hw

/-- Counterexample to C3 as stated: with 1001 matching transactions of
amount one, the pass stores current_spent 1000 (only the first 1000
fetched are summed) while the sum over all the user's matching
transactions is 1001. -/
theorem C3_counterexample :
    (firstWithId (check_budget_alerts dbC3 "u" 0 gW).budgets "b1").map
      (fun x => x.current_spent) = some 1000 ∧
    ((dbC3.expenses.filter (matchExp "u" budT)).map
      (fun e => e.amount)).sum = 1001 := by
  refine ⟨?_, dbC3_total⟩
  rw [dbC3_stored]
  rfl

lemma dbW_spent : spentOf dbW.expenses "u" budW = 85 := by
  rw [spentOf_small _ _ _ (by decide)]
  have hm : matchExp "u" budW expW = true := by decide
  show ((List.filter (matchExp "u" budW) [expW]).map
    (fun e => e.amount)).sum = 85
  rw [List.filter_cons, if_pos hm]
  simp [expW]

/-- Witness for C3 on the 85 percent state. -/
theorem C3_spent_writeback_witness :
    (dbW.budgets.map Budget.id).Nodup ∧ budW ∈ activeBudgetsOf dbW "u" ∧
    firstWithId (check_budget_alerts dbW "u" 1000 gW).budgets "b1" =
      some { budW with current_spent := 85 } := by
  refine ⟨by decide, by decide, ?_⟩
  have h := C3_spent_writeback dbW "u" 1000 gW budW (by decide) (by decide)
  rw [dbW_spent] at h
  exact h

/-- C10: a pass evaluates at most the first 100 active budgets; for each
it sums at most the first 1000 matching transactions into the stored
current_spent; active budgets beyond the first 100 keep their stored
record untouched; and on a concrete 1001-transaction store the stored
spend (1000) undercounts the true total (1001). -/
theorem C10_truncation_caps (db : DB) (uid : String) (now : ℚ)
    (g : Nat → String) (hnd : (db.budgets.map Budget.id).Nodup) :
    (activeBudgetsOf db uid).length ≤ 100 ∧
    (∀ b ∈ activeBudgetsOf db uid,
      firstWithId (check_budget_alerts db uid now g).budgets b.id =
        some { b with current_spent :=
          (((db.expenses.filter (matchExp uid b)).take 1000).map
            (fun e => e.amount)).sum }) ∧
    (∀ b ∈ (db.budgets.filter
        (fun x => x.user_id == uid && x.is_active)).drop 100,
      firstWithId (check_budget_alerts db uid now g).budgets b.id =
        firstWithId db.budgets b.id) ∧
    ((firstWithId (check_budget_alerts dbC3 "u" 0 gW).budgets "b1").map
        (fun x => x.current_spent) = some 1000 ∧
      ((dbC3.expenses.filter (matchExp "u" budT)).map
        (fun e => e.amount)).sum = 1001) := by
  refine ⟨List.length_take_le _ _, ?_, ?_, ?_, dbC3_total⟩
  · intro b hb
    have hw := pass_spent_written uid now g (activeBudgetsOf db uid) db b hb
      (active_ids_nodup db uid hnd)
    rw [firstWithId_of_mem db.budgets b (active_mem db uid b hb) hnd] at hw
    rw [check_budget_alerts_eq]
    exact hw
  · intro b hb
    have hfil : ((db.budgets.filter
        (fun x => x.user_id == uid && x.is_active)).map Budget.id).Nodup :=
      List.Nodup.sublist (List.Sublist.map _ (List.filter_sublist _)) hnd
    have hsplit := List.take_append_drop 100
      (db.budgets.filter (fun x => x.user_id == uid && x.is_active))
    rw [← hsplit, List.map_append] at hfil
    have hdisj := List.disjoint_of_nodup_append hfil
    have hout : b.id ∉ (activeBudgetsOf db uid).map Budget.id := by
      intro hcon
      exact hdisj hcon (List.mem_map_of_mem Budget.id hb)
    rw [check_budget_alerts_eq]
    exact pass_firstWithId_out uid now g _ db b.id hout
  · rw [dbC3_stored]
    rfl

/-- Witness for C10 on the 1001-transaction store. -/
theorem C10_truncation_caps_witness :
    (dbC3.budgets.map Budget.id).Nodup ∧
    (activeBudgetsOf dbC3 "u").length ≤ 100 ∧
    (firstWithId (check_budget_alerts dbC3 "u" 0 gW).budgets "b1").map
      (fun x => x.current_spent) = some 1000 := by
  refine ⟨by decide, ?_, ?_⟩
  · exact (C10_truncation_caps dbC3 "u" 0 gW (by decide)).1
  · exact (C10_truncation_caps dbC3 "u" 0 gW (by decide)).2.2.2.1

/-! ### Claim C7: which endpoints invoke the evaluator -/

/-- An income transaction of the user. -/
def incW : Expense :=
  { id := "i1", user_id := "u", title := "salary", amount := 50,
    category := "Job", type := "income", description := none,
    date := "2025-01-10", created_at := 0 }

/-- State with an 85 percent budget, one expense and one income record. -/
def dbC7 : DB :=
  { expenses := [expW, incW], budgets := [budW], budget_alerts := [] }

/-- A non-empty update touching only the title. -/
def updC7 : ExpenseUpdate := { title := some "salary2" }

/-- dbC7 after applying updC7 to the income record. -/
def dbC7upd : DB :=
  { expenses := [expW, { incW with title := "salary2" }],
    budgets := [budW], budget_alerts := [] }

lemma update_expense_found (db : DB) (uid eid : String) (u : ExpenseUpdate)
    (ex : Expense) (now : ℚ) (g : Nat → String)
    (hf : db.expenses.find? (fun e => e.id == eid && e.user_id == uid) =
      some ex)
    (hne : updNonEmpty u = true) :
    update_expense db uid eid u now g =
      some (check_budget_alerts
        { db with expenses := updateFirstExpense db.expenses uid eid u }
        uid now g) := by
  unfold update_expense
  rw [hf, hne]
  simp

/-- Counterexample to C7 as stated: updating an income transaction (with a
non-empty update) runs the evaluator, which inserts a warning alert for
the budget standing at 85 percent — the stored alerts do change. -/
theorem C7_counterexample :
    incW.type = "income" ∧
    dbC7.budget_alerts.length = 0 ∧
    (update_expense dbC7 "u" "i1" updC7 1000 gW).map
      (fun s => s.budget_alerts.length) = some 1 := by
  refine ⟨rfl, rfl, ?_⟩
  have hf : dbC7.expenses.find? (fun e => e.id == "i1" && e.user_id == "u")
      = some incW := by decide
  have hne : updNonEmpty updC7 = true := by decide
  rw [update_expense_found dbC7 "u" "i1" updC7 incW 1000 gW hf hne]
  have hdb : ({ dbC7 with
      expenses := updateFirstExpense dbC7.expenses "u" "i1" updC7 } : DB) =
      dbC7upd := by decide
  rw [hdb, Option.map_some']
  have hact : activeBudgetsOf dbC7upd "u" = [budW] := by decide
  have hsp : spentOf dbC7upd.expenses "u" budW = 85 := by
    rw [spentOf_small _ _ _ (by decide)]
    have h1 : matchExp "u" budW expW = true := by decide
    have h2 : matchExp "u" budW { incW with title := "salary2" } = false := by
      decide
    show ((List.filter (matchExp "u" budW)
      [expW, { incW with title := "salary2" }]).map
      (fun e => e.amount)).sum = 85
    rw [List.filter_cons, if_pos h1, List.filter_cons, if_neg (by simp [h2])]
    simp [expW]
  have hpw : pctOf 85 budW.limit_amount = 85 := by
    unfold pctOf
    rw [if_pos (show (0:ℚ) < budW.limit_amount by norm_num [budW])]
    norm_num [budW]
  have hwa : recentAlert dbC7upd.budget_alerts budW.id "warning" 1000 =
      false := rfl
  rw [check_budget_alerts_eq, hact, List.foldl_cons, List.foldl_nil,
    evalBudget_alerts, hsp, hpw,
    stepAlerts_warn dbC7upd.budget_alerts "u" 1000 gW budW 85 85
      (by norm_num) (by norm_num) hwa]
  rfl

/-- C7 amended: the evaluator runs exactly on (a) creation of a
transaction of kind expense, (b) any non-empty transaction update —
regardless of the transaction's kind — and (c) listing budgets (once per
fetched budget) or listing alerts; creating an income transaction runs no
evaluation and leaves budgets and alerts untouched. -/
theorem C7_endpoint_triggers (db : DB) (uid : String) (now : ℚ)
    (g : Nat → String) (newId : String) (today : PyDate) :
    (∀ d : ExpenseCreate, d.type ≠ "expense" →
      (create_expense db uid d newId today now g).1.budgets = db.budgets ∧
      (create_expense db uid d newId today now g).1.budget_alerts =
        db.budget_alerts ∧
      (create_expense db uid d newId today now g).1.expenses =
        db.expenses ++ [(create_expense db uid d newId today now g).2]) ∧
    (∀ d : ExpenseCreate, d.type = "expense" →
      (create_expense db uid d newId today now g).1 =
        check_budget_alerts
          { db with expenses := db.expenses ++
            [{ id := newId, user_id := uid, title := d.title,
               amount := d.amount, category := d.category, type := d.type,
               description := d.description,
               date := dateOrToday d.date today, created_at := now }] }
          uid now g) ∧
    (∀ (eid : String) (u : ExpenseUpdate) (ex : Expense),
      db.expenses.find? (fun e => e.id == eid && e.user_id == uid) =
        some ex →
      updNonEmpty u = true →
      update_expense db uid eid u now g =
        some (check_budget_alerts
          { db with expenses := updateFirstExpense db.expenses uid eid u }
          uid now g)) ∧
    (∀ (eid : String) (u : ExpenseUpdate),
      db.expenses.find? (fun e => e.id == eid && e.user_id == uid) = none →
      update_expense db uid eid u now g = none) ∧
    (∀ (eid : String) (u : ExpenseUpdate) (ex : Expense),
      db.expenses.find? (fun e => e.id == eid && e.user_id == uid) =
        some ex →
      updNonEmpty u = false →
      update_expense db uid eid u now g = some db) ∧
    ((get_budgets db uid now g).1 =
      Nat.iterate (fun s => check_budget_alerts s uid now g)
        ((db.budgets.filter (fun b => b.user_id == uid)).take 100).length
        db) ∧
    ((get_budget_alerts db uid now g).1 = check_budget_alerts db uid now g) := by
  refine ⟨?_, ?_, ?_, ?_, ?_, rfl, rfl⟩
  · intro d h
    have hc : (d.type == "expense") = false := beq_eq_false_iff_ne.mpr h
    refine ⟨?_, ?_, ?_⟩ <;> simp [create_expense, hc]
  · intro d h
    have hc : (d.type == "expense") = true := beq_iff_eq.mpr h
    simp [create_expense, hc]
  · intro eid u ex hf hne
    exact update_expense_found db uid eid u ex now g hf hne
  · intro eid u hf
    unfold update_expense
    rw [hf]
  · intro eid u ex hf hne
    unfold update_expense
    rw [hf, hne]
    simp

/-- An income creation request. -/
def incCreate : ExpenseCreate :=
  { title := "salary", amount := 50, category := "Job", type := "income" }

/-- Witness for C7: income creation leaves budgets and alerts unchanged;
a concrete non-empty income update routes through the evaluator. -/
theorem C7_endpoint_triggers_witness :
    incCreate.type ≠ "expense" ∧
    (create_expense dbW "u" incCreate "e9" ⟨2025, 1, 20⟩ 0 gW).1.budgets =
      dbW.budgets ∧
    (create_expense dbW "u" incCreate "e9" ⟨2025, 1, 20⟩ 0 gW).1.budget_alerts
      = dbW.budget_alerts ∧
    update_expense dbC7 "u" "i1" updC7 1000 gW =
      some (check_budget_alerts
        { dbC7 with
          expenses := updateFirstExpense dbC7.expenses "u" "i1" updC7 }
        "u" 1000 gW) := by
  refine ⟨by decide, ?_, ?_, ?_⟩
  · exact ((C7_endpoint_triggers dbW "u" 0 gW "e9" ⟨2025, 1, 20⟩).1
      incCreate (by decide)).1
  · exact ((C7_endpoint_triggers dbW "u" 0 gW "e9" ⟨2025, 1, 20⟩).1
      incCreate (by decide)).2.1
  · exact (C7_endpoint_triggers dbC7 "u" 1000 gW "x" ⟨2025, 1, 20⟩).2.2.1
      "i1" updC7 incW (by decide) (by decide)

/-! ### Claim C8: budget creation conflict -/

/-- C8: creating a budget is rejected with a conflict error — inserting
nothing, the state is returned unchanged — exactly when an active budget
of the same user, category and period already exists; otherwise exactly
one new active budget record is appended. -/
theorem C8_budget_conflict (db : DB) (uid : String) (d : BudgetCreate)
    (newId : String) (today : PyDate) (now : ℚ) :
    (db.budgets.any (fun b => b.user_id == uid && b.category == d.category
        && b.period == d.period && b.is_active) = true →
      (create_budget db uid d newId today now).db = db ∧
      (create_budget db uid d newId today now).created = none ∧
      (create_budget db uid d newId today now).error.isSome = true) ∧
    (db.budgets.any (fun b => b.user_id == uid && b.category == d.category
        && b.period == d.period && b.is_active) = false →
      ∃ nb : Budget,
        (create_budget db uid d newId today now).created = some nb ∧
        (create_budget db uid d newId today now).error = none ∧
        (create_budget db uid d newId today now).db.budgets =
          db.budgets ++ [nb] ∧
        (create_budget db uid d newId today now).db.expenses =
          db.expenses ∧
        (create_budget db uid d newId today now).db.budget_alerts =
          db.budget_alerts ∧
        nb.user_id = uid ∧ nb.category = d.category ∧
        nb.period = d.period ∧ nb.is_active = true ∧
        nb.current_spent = 0) := by
  constructor
  · intro h
    refine ⟨?_, ?_, ?_⟩ <;> simp [create_budget, h]
  · intro h
    simp only [create_budget]
    rw [if_neg (show ¬ ((db.budgets.any (fun b => b.user_id == uid &&
      b.category == d.category && b.period == d.period && b.is_active))
      = true) by simp [h])]
    exact ⟨_, rfl, rfl, rfl, rfl, rfl, rfl, rfl, rfl, rfl, rfl⟩

/-- A creation request colliding with budW. -/
def dupCreate : BudgetCreate :=
  { category := "Food", limit_amount := 100, period := "monthly" }

/-- A creation request for a fresh category. -/
def newCreate : BudgetCreate :=
  { category := "Travel", limit_amount := 50, period := "monthly" }

/-- Witness for C8: the conflicting and the fresh creation on dbW. -/
theorem C8_budget_conflict_witness :
    dbW.budgets.any (fun b => b.user_id == "u" &&
      b.category == dupCreate.category && b.period == dupCreate.period &&
      b.is_active) = true ∧
    (create_budget dbW "u" dupCreate "nb" ⟨2025, 1, 15⟩ 0).db = dbW ∧
    (create_budget dbW "u" dupCreate "nb" ⟨2025, 1, 15⟩ 0).created = none ∧
    dbW.budgets.any (fun b => b.user_id == "u" &&
      b.category == newCreate.category && b.period == newCreate.period &&
      b.is_active) = false ∧
    (∃ nb : Budget,
      (create_budget dbW "u" newCreate "nb" ⟨2025, 1, 15⟩ 0).created =
        some nb ∧
      (create_budget dbW "u" newCreate "nb" ⟨2025, 1, 15⟩ 0).db.budgets =
        dbW.budgets ++ [nb]) := by
  refine ⟨by decide, ?_, ?_, by decide, ?_⟩
  · exact ((C8_budget_conflict dbW "u" dupCreate "nb" ⟨2025, 1, 15⟩ 0).1
      (by decide)).1
  · exact ((C8_budget_conflict dbW "u" dupCreate "nb" ⟨2025, 1, 15⟩ 0).1
      (by decide)).2.1
  · obtain ⟨nb, h1, -, h3, -, -, -, -, -, -, -⟩ :=
      (C8_budget_conflict dbW "u" newCreate "nb" ⟨2025, 1, 15⟩ 0).2
        (by decide)
    exact ⟨nb, h1, h3⟩
